import Mathlib

/-!
Verification of `src/tcp_options.rs` from the `udp-over-tcp` repository.

The file shallowly embeds the module's data model and its single routine
`apply`.  The OS socket is modelled by an explicit record of the four
tunables `apply` can touch, and the operating system's possible failures by
an oracle assigning to every socket call either success or an error payload.

A crucial point of the embedding: the four read-back calls
(`tcp_stream.nodelay()`, `recv_buffer_size()`, `send_buffer_size()`,
`getsockopt(fd, Mark)`) appear in the source as arguments of `log::debug!`
invocations.  The `log` crate's macros evaluate their arguments lazily,
inside `if level <= max_level() { ... }`; consequently each read-back (and
the `?` error propagation attached to it) runs only when debug-level
logging is enabled.  The embedding makes this explicit through a boolean
parameter `dbg` of `apply`.
-/

/-- Model of `std::io::Error`, the payload wrapped by the `NoDelay`,
`RecvBuffer` and `SendBuffer` failure kinds.  Only its displayable text
matters to the claims, so it is modelled as a message string. -/
structure IoError where
  msg : String
  deriving DecidableEq

/-- Model of `nix::Error` (an errno value), the payload wrapped by the
`Mark` failure kind. -/
structure NixError where
  errno : Nat
  deriving DecidableEq

/-- The OS-level socket calls `apply` can issue, in the vocabulary of the
source: `set_nodelay`/`nodelay`, `set_recv_buffer_size`/`recv_buffer_size`,
`set_send_buffer_size`/`send_buffer_size`, and `setsockopt`/`getsockopt`
for `sockopt::Mark`.  Buffer sizes are `usize` and the mark is `u32` in the
source; both are forwarded verbatim with no arithmetic, so `Nat` models
them. -/
inductive OsCall where
  | setNodelay (b : Bool)
  | getNodelay
  | setRecvBuffer (n : Nat)
  | getRecvBuffer
  | setSendBuffer (n : Nat)
  | getSendBuffer
  | setMark (m : Nat)
  | getMark
  deriving DecidableEq

/-- `TcpOptions` (source lines 11-32), as compiled on Linux where the
`fwmark` field exists. -/
structure TcpOptions where
  nodelay : Bool
  recv_buffer_size : Option Nat
  send_buffer_size : Option Nat
  fwmark : Option Nat
  deriving DecidableEq

/-- `TcpOptions` as compiled on a non-Linux platform: the `fwmark` field is
behind `#[cfg(target_os = "linux")]` and does not exist. -/
structure TcpOptionsNonLinux where
  nodelay : Bool
  recv_buffer_size : Option Nat
  send_buffer_size : Option Nat
  deriving DecidableEq

/-- `ApplyTcpOptionsError` (source lines 34-48), Linux build: four kinds,
each wrapping the underlying OS error. -/
inductive ApplyTcpOptionsError where
  | NoDelay (e : IoError)
  | RecvBuffer (e : IoError)
  | SendBuffer (e : IoError)
  | Mark (e : NixError)
  deriving DecidableEq

/-- `ApplyTcpOptionsError` as compiled on a non-Linux platform: the `Mark`
variant is behind `#[cfg(target_os = "linux")]` and does not exist. -/
inductive ApplyTcpOptionsErrorNonLinux where
  | NoDelay (e : IoError)
  | RecvBuffer (e : IoError)
  | SendBuffer (e : IoError)
  deriving DecidableEq

/-- The `fmt::Display` impl (source lines 50-62): a fixed label per kind,
ignoring the wrapped error. -/
def displayMessage : ApplyTcpOptionsError → String
  | .NoDelay _ => "Failed to get/set TCP_NODELAY"
  | .RecvBuffer _ => "Failed to get/set TCP_RCVBUF"
  | .SendBuffer _ => "Failed to get/set TCP_SNDBUF"
  | .Mark _ => "Failed to get/set SO_MARK"

/-- The `std::error::Error::source` impl (source lines 64-75): every kind
exposes its wrapped error as the cause.  The Rust trait object
`&dyn Error` is modelled as a sum of the two concrete wrapped error
types. -/
def errorSource : ApplyTcpOptionsError → Option (IoError ⊕ NixError)
  | .NoDelay e => some (Sum.inl e)
  | .RecvBuffer e => some (Sum.inl e)
  | .SendBuffer e => some (Sum.inl e)
  | .Mark e => some (Sum.inr e)

/-- The OS-level state of the one socket `apply` works on: the four
tunables it can set or read. -/
structure SockState where
  nodelay : Bool
  recv_buffer : Nat
  send_buffer : Nat
  mark : Nat
  deriving DecidableEq

/-- Oracle describing which OS calls fail.  `ioFail` covers the six calls
whose Rust counterparts return `io::Result`, `nixFail` the two
`nix`-backed mark calls.  A successful set call stores its argument in the
corresponding `SockState` field; a successful get call leaves the state
unchanged. -/
structure Os where
  ioFail : OsCall → Option IoError
  nixFail : OsCall → Option NixError

/-- Equality of `Except` values is decidable when both components are. -/
def exceptDecEq {ε α : Type} [DecidableEq ε] [DecidableEq α] : DecidableEq (Except ε α)
  | Except.error e, Except.error e' =>
    if h : e = e' then Decidable.isTrue (by rw [h])
    else Decidable.isFalse (fun hc => h (by cases hc; rfl))
  | Except.error _, Except.ok _ => Decidable.isFalse (fun hc => Except.noConfusion hc)
  | Except.ok _, Except.error _ => Decidable.isFalse (fun hc => Except.noConfusion hc)
  | Except.ok a, Except.ok a' =>
    if h : a = a' then Decidable.isTrue (by rw [h])
    else Decidable.isFalse (fun hc => h (by cases hc; rfl))

instance {ε α : Type} [DecidableEq ε] [DecidableEq α] : DecidableEq (Except ε α) :=
  exceptDecEq

/-- What `apply` produces in the model: the Rust return value, plus the two
OS-level observables - the final socket state and the ordered list of OS
calls actually issued. -/
structure ApplyOutcome where
  result : Except ApplyTcpOptionsError Unit
  state : SockState
  trace : List OsCall
  deriving DecidableEq

/-- Same, for the non-Linux build of the module. -/
structure ApplyOutcomeNonLinux where
  result : Except ApplyTcpOptionsErrorNonLinux Unit
  state : SockState
  trace : List OsCall
  deriving DecidableEq

/-- The mark read-back (source lines 116-119):
`log::debug!("SO_MARK: {}", getsockopt(fd, sockopt::Mark).map_err(Mark)?)`.
Runs only when debug logging is enabled (`dbg`); its failure is wrapped as
`Mark`.  On success `apply` is finished and returns `Ok(())`. -/
def markReadback (os : Os) (dbg : Bool) (s : SockState) (tr : List OsCall) : ApplyOutcome :=
  if dbg then
    match os.nixFail OsCall.getMark with
    | some e => ⟨Except.error (ApplyTcpOptionsError.Mark e), s, tr ++ [OsCall.getMark]⟩
    | none => ⟨Except.ok (), s, tr ++ [OsCall.getMark]⟩
  else
    ⟨Except.ok (), s, tr⟩

/-- The mark set step (source lines 112-115):
`if let Some(fwmark) = options.fwmark { setsockopt(fd, sockopt::Mark, &fwmark).map_err(Mark)?; }`
followed by the mark read-back. -/
def markStage (os : Os) (dbg : Bool) (options : TcpOptions) (s : SockState)
    (tr : List OsCall) : ApplyOutcome :=
  match options.fwmark with
  | some m =>
    match os.nixFail (OsCall.setMark m) with
    | some e => ⟨Except.error (ApplyTcpOptionsError.Mark e), s, tr ++ [OsCall.setMark m]⟩
    | none => markReadback os dbg { s with mark := m } (tr ++ [OsCall.setMark m])
  | none => markReadback os dbg s tr

/-- The send-buffer read-back (source lines 104-109):
`log::debug!("SO_SNDBUF: {}", tcp_stream.send_buffer_size().map_err(SendBuffer)?)`.
Runs only when debug logging is enabled; then the mark stage follows. -/
def sendReadback (os : Os) (dbg : Bool) (options : TcpOptions) (s : SockState)
    (tr : List OsCall) : ApplyOutcome :=
  if dbg then
    match os.ioFail OsCall.getSendBuffer with
    | some e => ⟨Except.error (ApplyTcpOptionsError.SendBuffer e), s, tr ++ [OsCall.getSendBuffer]⟩
    | none => markStage os dbg options s (tr ++ [OsCall.getSendBuffer])
  else
    markStage os dbg options s tr

/-- The send-buffer set step (source lines 99-103):
`if let Some(send_buffer_size) = options.send_buffer_size { tcp_stream.set_send_buffer_size(..).map_err(SendBuffer)?; }`
followed by the send-buffer read-back. -/
def sendStage (os : Os) (dbg : Bool) (options : TcpOptions) (s : SockState)
    (tr : List OsCall) : ApplyOutcome :=
  match options.send_buffer_size with
  | some n =>
    match os.ioFail (OsCall.setSendBuffer n) with
    | some e => ⟨Except.error (ApplyTcpOptionsError.SendBuffer e), s, tr ++ [OsCall.setSendBuffer n]⟩
    | none => sendReadback os dbg options { s with send_buffer := n } (tr ++ [OsCall.setSendBuffer n])
  | none => sendReadback os dbg options s tr

/-- The receive-buffer read-back (source lines 93-98):
`log::debug!("SO_RCVBUF: {}", tcp_stream.recv_buffer_size().map_err(RecvBuffer)?)`.
Runs only when debug logging is enabled; then the send-buffer stage
follows. -/
def recvReadback (os : Os) (dbg : Bool) (options : TcpOptions) (s : SockState)
    (tr : List OsCall) : ApplyOutcome :=
  if dbg then
    match os.ioFail OsCall.getRecvBuffer with
    | some e => ⟨Except.error (ApplyTcpOptionsError.RecvBuffer e), s, tr ++ [OsCall.getRecvBuffer]⟩
    | none => sendStage os dbg options s (tr ++ [OsCall.getRecvBuffer])
  else
    sendStage os dbg options s tr

/-- The receive-buffer set step (source lines 88-92):
`if let Some(recv_buffer_size) = options.recv_buffer_size { tcp_stream.set_recv_buffer_size(..).map_err(RecvBuffer)?; }`
followed by the receive-buffer read-back. -/
def recvStage (os : Os) (dbg : Bool) (options : TcpOptions) (s : SockState)
    (tr : List OsCall) : ApplyOutcome :=
  match options.recv_buffer_size with
  | some n =>
    match os.ioFail (OsCall.setRecvBuffer n) with
    | some e => ⟨Except.error (ApplyTcpOptionsError.RecvBuffer e), s, tr ++ [OsCall.setRecvBuffer n]⟩
    | none => recvReadback os dbg options { s with recv_buffer := n } (tr ++ [OsCall.setRecvBuffer n])
  | none => recvReadback os dbg options s tr

/-- The no-delay read-back (source lines 82-87):
`log::debug!("TCP_NODELAY: {}", tcp_stream.nodelay().map_err(NoDelay)?)`.
Runs only when debug logging is enabled; then the receive-buffer stage
follows. -/
def nodelayReadback (os : Os) (dbg : Bool) (options : TcpOptions) (s : SockState)
    (tr : List OsCall) : ApplyOutcome :=
  if dbg then
    match os.ioFail OsCall.getNodelay with
    | some e => ⟨Except.error (ApplyTcpOptionsError.NoDelay e), s, tr ++ [OsCall.getNodelay]⟩
    | none => recvStage os dbg options s (tr ++ [OsCall.getNodelay])
  else
    recvStage os dbg options s tr

/-- `apply` (source lines 78-122), Linux build.  First step (lines 79-81):
`tcp_stream.set_nodelay(options.nodelay).map_err(NoDelay)?` - always
issued, with the Option Set's boolean -, then the chain of read-backs and
conditional set steps above.  `dbg` tells whether debug-level logging is
enabled for the duration of the call. -/
def apply (os : Os) (dbg : Bool) (options : TcpOptions) (s0 : SockState) : ApplyOutcome :=
  match os.ioFail (OsCall.setNodelay options.nodelay) with
  | some e =>
    ⟨Except.error (ApplyTcpOptionsError.NoDelay e), s0, [OsCall.setNodelay options.nodelay]⟩
  | none =>
    nodelayReadback os dbg options { s0 with nodelay := options.nodelay }
      [OsCall.setNodelay options.nodelay]

/-- The non-Linux send-buffer read-back: as on Linux, but on success the
function is finished (`Ok(())`), the mark block being compiled out. -/
def sendReadbackNonLinux (os : Os) (dbg : Bool) (s : SockState)
    (tr : List OsCall) : ApplyOutcomeNonLinux :=
  if dbg then
    match os.ioFail OsCall.getSendBuffer with
    | some e =>
      ⟨Except.error (ApplyTcpOptionsErrorNonLinux.SendBuffer e), s,
        tr ++ [OsCall.getSendBuffer]⟩
    | none => ⟨Except.ok (), s, tr ++ [OsCall.getSendBuffer]⟩
  else
    ⟨Except.ok (), s, tr⟩

/-- The non-Linux send-buffer set step (same source lines as on Linux). -/
def sendStageNonLinux (os : Os) (dbg : Bool) (options : TcpOptionsNonLinux)
    (s : SockState) (tr : List OsCall) : ApplyOutcomeNonLinux :=
  match options.send_buffer_size with
  | some n =>
    match os.ioFail (OsCall.setSendBuffer n) with
    | some e =>
      ⟨Except.error (ApplyTcpOptionsErrorNonLinux.SendBuffer e), s,
        tr ++ [OsCall.setSendBuffer n]⟩
    | none =>
      sendReadbackNonLinux os dbg { s with send_buffer := n } (tr ++ [OsCall.setSendBuffer n])
  | none => sendReadbackNonLinux os dbg s tr

/-- The non-Linux receive-buffer read-back. -/
def recvReadbackNonLinux (os : Os) (dbg : Bool) (options : TcpOptionsNonLinux)
    (s : SockState) (tr : List OsCall) : ApplyOutcomeNonLinux :=
  if dbg then
    match os.ioFail OsCall.getRecvBuffer with
    | some e =>
      ⟨Except.error (ApplyTcpOptionsErrorNonLinux.RecvBuffer e), s,
        tr ++ [OsCall.getRecvBuffer]⟩
    | none => sendStageNonLinux os dbg options s (tr ++ [OsCall.getRecvBuffer])
  else
    sendStageNonLinux os dbg options s tr

/-- The non-Linux receive-buffer set step. -/
def recvStageNonLinux (os : Os) (dbg : Bool) (options : TcpOptionsNonLinux)
    (s : SockState) (tr : List OsCall) : ApplyOutcomeNonLinux :=
  match options.recv_buffer_size with
  | some n =>
    match os.ioFail (OsCall.setRecvBuffer n) with
    | some e =>
      ⟨Except.error (ApplyTcpOptionsErrorNonLinux.RecvBuffer e), s,
        tr ++ [OsCall.setRecvBuffer n]⟩
    | none =>
      recvReadbackNonLinux os dbg options { s with recv_buffer := n }
        (tr ++ [OsCall.setRecvBuffer n])
  | none => recvReadbackNonLinux os dbg options s tr

/-- The non-Linux no-delay read-back. -/
def nodelayReadbackNonLinux (os : Os) (dbg : Bool) (options : TcpOptionsNonLinux)
    (s : SockState) (tr : List OsCall) : ApplyOutcomeNonLinux :=
  if dbg then
    match os.ioFail OsCall.getNodelay with
    | some e =>
      ⟨Except.error (ApplyTcpOptionsErrorNonLinux.NoDelay e), s,
        tr ++ [OsCall.getNodelay]⟩
    | none => recvStageNonLinux os dbg options s (tr ++ [OsCall.getNodelay])
  else
    recvStageNonLinux os dbg options s tr

/-- `apply` as compiled on a non-Linux platform: identical except that the
whole `#[cfg(target_os = "linux")]` block (source lines 110-120) is
compiled out, so after the send-buffer read-back the function returns
`Ok(())` and no mark call can ever be issued. -/
def applyNonLinux (os : Os) (dbg : Bool) (options : TcpOptionsNonLinux)
    (s0 : SockState) : ApplyOutcomeNonLinux :=
  match os.ioFail (OsCall.setNodelay options.nodelay) with
  | some e =>
    ⟨Except.error (ApplyTcpOptionsErrorNonLinux.NoDelay e), s0,
      [OsCall.setNodelay options.nodelay]⟩
  | none =>
    nodelayReadbackNonLinux os dbg options { s0 with nodelay := options.nodelay }
      [OsCall.setNodelay options.nodelay]

/-- The failure kind `apply` wraps around each OS call's error, read off the
`map_err` lines of the source: the two no-delay calls wrap as `NoDelay`,
the two receive-buffer calls as `RecvBuffer`, the two send-buffer calls as
`SendBuffer`, and the two mark calls as `Mark`.  `none` means the call
succeeds under oracle `os`. -/
def failOf (os : Os) : OsCall → Option ApplyTcpOptionsError
  | OsCall.setNodelay b => (os.ioFail (OsCall.setNodelay b)).map ApplyTcpOptionsError.NoDelay
  | OsCall.getNodelay => (os.ioFail OsCall.getNodelay).map ApplyTcpOptionsError.NoDelay
  | OsCall.setRecvBuffer n =>
    (os.ioFail (OsCall.setRecvBuffer n)).map ApplyTcpOptionsError.RecvBuffer
  | OsCall.getRecvBuffer => (os.ioFail OsCall.getRecvBuffer).map ApplyTcpOptionsError.RecvBuffer
  | OsCall.setSendBuffer n =>
    (os.ioFail (OsCall.setSendBuffer n)).map ApplyTcpOptionsError.SendBuffer
  | OsCall.getSendBuffer => (os.ioFail OsCall.getSendBuffer).map ApplyTcpOptionsError.SendBuffer
  | OsCall.setMark m => (os.nixFail (OsCall.setMark m)).map ApplyTcpOptionsError.Mark
  | OsCall.getMark => (os.nixFail OsCall.getMark).map ApplyTcpOptionsError.Mark

/-- Effect of a successful OS call on the socket state: a set call stores
its argument, a get call changes nothing. -/
def applyCallState (s : SockState) : OsCall → SockState
  | OsCall.setNodelay b => { s with nodelay := b }
  | OsCall.setRecvBuffer n => { s with recv_buffer := n }
  | OsCall.setSendBuffer n => { s with send_buffer := n }
  | OsCall.setMark m => { s with mark := m }
  | _ => s

/-- Runs a list of OS calls in order, stopping at the first failure and
wrapping it via `failOf`; records the calls actually issued. -/
def runPlan (os : Os) : List OsCall → SockState → ApplyOutcome
  | [], s => ⟨Except.ok (), s, []⟩
  | c :: rest, s =>
    match failOf os c with
    | some err => ⟨Except.error err, s, [c]⟩
    | none =>
      let out := runPlan os rest (applyCallState s c)
      ⟨out.result, out.state, c :: out.trace⟩

/-- Prepends an already-issued trace to an outcome's trace. -/
def withTrace (tr : List OsCall) (o : ApplyOutcome) : ApplyOutcome :=
  ⟨o.result, o.state, tr ++ o.trace⟩

/-- The calls of the mark stage onward: the conditional mark set, then the
debug-gated mark read-back. -/
def markPlan (dbg : Bool) (o : TcpOptions) : List OsCall :=
  (match o.fwmark with | some m => [OsCall.setMark m] | none => [])
    ++ (if dbg then [OsCall.getMark] else [])

/-- The calls from the send-buffer read-back onward. -/
def sendReadPlan (dbg : Bool) (o : TcpOptions) : List OsCall :=
  (if dbg then [OsCall.getSendBuffer] else []) ++ markPlan dbg o

/-- The calls from the send-buffer set step onward. -/
def sendPlan (dbg : Bool) (o : TcpOptions) : List OsCall :=
  (match o.send_buffer_size with | some n => [OsCall.setSendBuffer n] | none => [])
    ++ sendReadPlan dbg o

/-- The calls from the receive-buffer read-back onward. -/
def recvReadPlan (dbg : Bool) (o : TcpOptions) : List OsCall :=
  (if dbg then [OsCall.getRecvBuffer] else []) ++ sendPlan dbg o

/-- The calls from the receive-buffer set step onward. -/
def recvPlan (dbg : Bool) (o : TcpOptions) : List OsCall :=
  (match o.recv_buffer_size with | some n => [OsCall.setRecvBuffer n] | none => [])
    ++ recvReadPlan dbg o

/-- The calls from the no-delay read-back onward. -/
def ndReadPlan (dbg : Bool) (o : TcpOptions) : List OsCall :=
  (if dbg then [OsCall.getNodelay] else []) ++ recvPlan dbg o

/-- The full, ordered sequence of OS calls `apply` will issue for Option
Set `o` when debug logging is `dbg`, absent an early failure: no-delay set,
then per family a conditional set followed by a debug-gated read-back. -/
def plan (dbg : Bool) (o : TcpOptions) : List OsCall :=
  OsCall.setNodelay o.nodelay :: ndReadPlan dbg o

/-- The socket state after a fully successful `apply` of `o`: each
requested field is overwritten, absent fields keep their previous value. -/
def endState (o : TcpOptions) (s : SockState) : SockState :=
  { nodelay := o.nodelay,
    recv_buffer := o.recv_buffer_size.getD s.recv_buffer,
    send_buffer := o.send_buffer_size.getD s.send_buffer,
    mark := o.fwmark.getD s.mark }

/-- Read-back (get) calls, as opposed to set calls. -/
def isReadbackCall : OsCall → Bool
  | OsCall.getNodelay => true
  | OsCall.getRecvBuffer => true
  | OsCall.getSendBuffer => true
  | OsCall.getMark => true
  | _ => false

/-- The two `SO_MARK` calls. -/
def isMarkCall : OsCall → Bool
  | OsCall.setMark _ => true
  | OsCall.getMark => true
  | _ => false

/-- Oracle under which every OS call succeeds. -/
def osAllOk : Os := ⟨fun _ => none, fun _ => none⟩

/-- Oracle under which exactly the no-delay read-back fails. -/
def osGetNodelayFails : Os :=
  ⟨fun c => if c = OsCall.getNodelay then some ⟨"getsockopt(TCP_NODELAY) failed"⟩ else none,
    fun _ => none⟩

/-- Oracle under which exactly the receive-buffer read-back fails. -/
def osGetRecvFails : Os :=
  ⟨fun c => if c = OsCall.getRecvBuffer then some ⟨"getsockopt(SO_RCVBUF) failed"⟩ else none,
    fun _ => none⟩

/-- Oracle under which exactly the mark read-back fails. -/
def osGetMarkFails : Os :=
  ⟨fun _ => none,
    fun c => if c = OsCall.getMark then some ⟨13⟩ else none⟩

/-- Oracle under which exactly the mark set call fails (for any argument),
as when the process lacks `CAP_NET_ADMIN`. -/
def osSetMarkFails : Os :=
  ⟨fun _ => none,
    fun c => match c with | OsCall.setMark _ => some ⟨1⟩ | _ => none⟩

/-- Oracle under which every read-back fails and every set call succeeds. -/
def osAllGetsFail : Os :=
  ⟨fun c => if isReadbackCall c then some ⟨"read-back failed"⟩ else none,
    fun c => if isReadbackCall c then some ⟨75⟩ else none⟩

/-- Oracle under which exactly the receive-buffer set call fails. -/
def osSetRecvFails : Os :=
  ⟨fun c => match c with | OsCall.setRecvBuffer _ => some ⟨"setsockopt(SO_RCVBUF) failed"⟩ | _ => none,
    fun _ => none⟩

/-- A sample initial socket state. -/
def st0 : SockState := ⟨false, 8192, 8192, 0⟩

theorem markReadback_eq (os : Os) (dbg : Bool) (s : SockState) (tr : List OsCall) :
    markReadback os dbg s tr = withTrace tr (runPlan os (if dbg then [OsCall.getMark] else []) s) := by
  cases dbg
  · simp [markReadback, runPlan, withTrace]
  · cases h : os.nixFail OsCall.getMark <;>
      simp [markReadback, runPlan, withTrace, failOf, h, applyCallState]

theorem markStage_eq (os : Os) (dbg : Bool) (o : TcpOptions) (s : SockState) (tr : List OsCall) :
    markStage os dbg o s tr = withTrace tr (runPlan os (markPlan dbg o) s) := by
  cases hm : o.fwmark with
  | none => simp [markStage, hm, markPlan, markReadback_eq]
  | some m =>
    cases h : os.nixFail (OsCall.setMark m) <;>
      simp [markStage, hm, markPlan, h, markReadback_eq, runPlan, failOf, applyCallState,
        withTrace, List.append_assoc]

theorem sendReadback_eq (os : Os) (dbg : Bool) (o : TcpOptions) (s : SockState) (tr : List OsCall) :
    sendReadback os dbg o s tr = withTrace tr (runPlan os (sendReadPlan dbg o) s) := by
  cases dbg
  · simp [sendReadback, sendReadPlan, markStage_eq]
  · cases h : os.ioFail OsCall.getSendBuffer <;>
      simp [sendReadback, sendReadPlan, h, markStage_eq, runPlan, failOf, applyCallState,
        withTrace, List.append_assoc]

theorem sendStage_eq (os : Os) (dbg : Bool) (o : TcpOptions) (s : SockState) (tr : List OsCall) :
    sendStage os dbg o s tr = withTrace tr (runPlan os (sendPlan dbg o) s) := by
  cases hn : o.send_buffer_size with
  | none => simp [sendStage, hn, sendPlan, sendReadback_eq]
  | some n =>
    cases h : os.ioFail (OsCall.setSendBuffer n) <;>
      simp [sendStage, hn, sendPlan, h, sendReadback_eq, runPlan, failOf, applyCallState,
        withTrace, List.append_assoc]

theorem recvReadback_eq (os : Os) (dbg : Bool) (o : TcpOptions) (s : SockState) (tr : List OsCall) :
    recvReadback os dbg o s tr = withTrace tr (runPlan os (recvReadPlan dbg o) s) := by
  cases dbg
  · simp [recvReadback, recvReadPlan, sendStage_eq]
  · cases h : os.ioFail OsCall.getRecvBuffer <;>
      simp [recvReadback, recvReadPlan, h, sendStage_eq, runPlan, failOf, applyCallState,
        withTrace, List.append_assoc]

theorem recvStage_eq (os : Os) (dbg : Bool) (o : TcpOptions) (s : SockState) (tr : List OsCall) :
    recvStage os dbg o s tr = withTrace tr (runPlan os (recvPlan dbg o) s) := by
  cases hn : o.recv_buffer_size with
  | none => simp [recvStage, hn, recvPlan, recvReadback_eq]
  | some n =>
    cases h : os.ioFail (OsCall.setRecvBuffer n) <;>
      simp [recvStage, hn, recvPlan, h, recvReadback_eq, runPlan, failOf, applyCallState,
        withTrace, List.append_assoc]

theorem nodelayReadback_eq (os : Os) (dbg : Bool) (o : TcpOptions) (s : SockState)
    (tr : List OsCall) :
    nodelayReadback os dbg o s tr = withTrace tr (runPlan os (ndReadPlan dbg o) s) := by
  cases dbg
  · simp [nodelayReadback, ndReadPlan, recvStage_eq]
  · cases h : os.ioFail OsCall.getNodelay <;>
      simp [nodelayReadback, ndReadPlan, h, recvStage_eq, runPlan, failOf, applyCallState,
        withTrace, List.append_assoc]

theorem apply_eq_runPlan (os : Os) (dbg : Bool) (o : TcpOptions) (s : SockState) :
    apply os dbg o s = runPlan os (plan dbg o) s := by
  cases h : os.ioFail (OsCall.setNodelay o.nodelay) <;>
    simp [apply, plan, runPlan, failOf, h, nodelayReadback_eq, applyCallState, withTrace]

theorem runPlan_result_ok_iff (os : Os) (l : List OsCall) : ∀ s : SockState,
    (runPlan os l s).result = Except.ok () ↔ ∀ c ∈ l, failOf os c = none := by
  induction l with
  | nil => intro s; simp [runPlan]
  | cons c rest ih =>
    intro s
    cases h : failOf os c with
    | some err => simp [runPlan, h]
    | none => simp [runPlan, h, ih]

theorem runPlan_ok_eq (os : Os) (l : List OsCall) : ∀ s : SockState,
    (∀ c ∈ l, failOf os c = none) →
    runPlan os l s = ⟨Except.ok (), List.foldl applyCallState s l, l⟩ := by
  induction l with
  | nil => intro s _; simp [runPlan]
  | cons c rest ih =>
    intro s h
    have hc : failOf os c = none := h c (by simp)
    have hrest : ∀ c' ∈ rest, failOf os c' = none := fun c' hm => h c' (by simp [hm])
    simp [runPlan, hc, ih (applyCallState s c) hrest]

theorem runPlan_error_decomp (os : Os) (l : List OsCall) : ∀ (s : SockState)
    (err : ApplyTcpOptionsError), (runPlan os l s).result = Except.error err →
    ∃ l1 c l2, l = l1 ++ c :: l2 ∧ (∀ c' ∈ l1, failOf os c' = none) ∧
      failOf os c = some err ∧ (runPlan os l s).trace = l1 ++ [c] ∧
      (runPlan os l s).state = List.foldl applyCallState s l1 := by
  induction l with
  | nil => intro s err h; simp [runPlan] at h
  | cons c rest ih =>
    intro s err h
    cases hc : failOf os c with
    | some e =>
      have he : e = err := by simpa [runPlan, hc] using h
      exact ⟨[], c, rest, by simp, by simp, by simp [hc, he], by simp [runPlan, hc],
        by simp [runPlan, hc]⟩
    | none =>
      have h' : (runPlan os rest (applyCallState s c)).result = Except.error err := by
        simpa [runPlan, hc] using h
      obtain ⟨l1, c', l2, hl, h1, h2, h3, h4⟩ := ih (applyCallState s c) err h'
      refine ⟨c :: l1, c', l2, by simp [hl], ?_, h2, ?_, ?_⟩
      · intro x hx
        rcases List.mem_cons.mp hx with hx | hx
        · simpa [hx] using hc
        · exact h1 x hx
      · simp [runPlan, hc, h3]
      · simp [runPlan, hc, h4]

theorem runPlan_trace_take (os : Os) (l : List OsCall) : ∀ s : SockState,
    ∃ k, (runPlan os l s).trace = List.take k l := by
  induction l with
  | nil => intro s; exact ⟨0, by simp [runPlan]⟩
  | cons c rest ih =>
    intro s
    cases h : failOf os c with
    | some err => exact ⟨1, by simp [runPlan, h]⟩
    | none =>
      obtain ⟨k, hk⟩ := ih (applyCallState s c)
      exact ⟨k + 1, by simp [runPlan, h, hk]⟩

theorem runPlan_cons_trace (os : Os) (c : OsCall) (l : List OsCall) (s : SockState) :
    ∃ t, (runPlan os (c :: l) s).trace = c :: t := by
  cases h : failOf os c with
  | some err => exact ⟨[], by simp [runPlan, h]⟩
  | none => exact ⟨(runPlan os l (applyCallState s c)).trace, by simp [runPlan, h]⟩

theorem mem_trace_mem_plan (os : Os) (dbg : Bool) (o : TcpOptions) (s : SockState)
    (c : OsCall) (h : c ∈ (apply os dbg o s).trace) : c ∈ plan dbg o := by
  rw [apply_eq_runPlan] at h
  obtain ⟨k, hk⟩ := runPlan_trace_take os (plan dbg o) s
  rw [hk] at h
  exact List.take_subset k (plan dbg o) h

theorem getNodelay_mem_plan (dbg : Bool) (o : TcpOptions) :
    OsCall.getNodelay ∈ plan dbg o ↔ dbg = true := by
  cases dbg <;> cases hr : o.recv_buffer_size <;> cases hs : o.send_buffer_size <;>
    cases hm : o.fwmark <;>
    simp [plan, ndReadPlan, recvPlan, recvReadPlan, sendPlan, sendReadPlan, markPlan,
      hr, hs, hm]

theorem getRecvBuffer_mem_plan (dbg : Bool) (o : TcpOptions) :
    OsCall.getRecvBuffer ∈ plan dbg o ↔ dbg = true := by
  cases dbg <;> cases hr : o.recv_buffer_size <;> cases hs : o.send_buffer_size <;>
    cases hm : o.fwmark <;>
    simp [plan, ndReadPlan, recvPlan, recvReadPlan, sendPlan, sendReadPlan, markPlan,
      hr, hs, hm]

theorem getSendBuffer_mem_plan (dbg : Bool) (o : TcpOptions) :
    OsCall.getSendBuffer ∈ plan dbg o ↔ dbg = true := by
  cases dbg <;> cases hr : o.recv_buffer_size <;> cases hs : o.send_buffer_size <;>
    cases hm : o.fwmark <;>
    simp [plan, ndReadPlan, recvPlan, recvReadPlan, sendPlan, sendReadPlan, markPlan,
      hr, hs, hm]

theorem getMark_mem_plan (dbg : Bool) (o : TcpOptions) :
    OsCall.getMark ∈ plan dbg o ↔ dbg = true := by
  cases dbg <;> cases hr : o.recv_buffer_size <;> cases hs : o.send_buffer_size <;>
    cases hm : o.fwmark <;>
    simp [plan, ndReadPlan, recvPlan, recvReadPlan, sendPlan, sendReadPlan, markPlan,
      hr, hs, hm]

theorem setRecvBuffer_mem_plan (dbg : Bool) (o : TcpOptions) (n : Nat) :
    OsCall.setRecvBuffer n ∈ plan dbg o ↔ o.recv_buffer_size = some n := by
  cases dbg <;> cases hr : o.recv_buffer_size <;> cases hs : o.send_buffer_size <;>
    cases hm : o.fwmark <;>
    simp [plan, ndReadPlan, recvPlan, recvReadPlan, sendPlan, sendReadPlan, markPlan,
      hr, hs, hm, eq_comm]

theorem setSendBuffer_mem_plan (dbg : Bool) (o : TcpOptions) (n : Nat) :
    OsCall.setSendBuffer n ∈ plan dbg o ↔ o.send_buffer_size = some n := by
  cases dbg <;> cases hr : o.recv_buffer_size <;> cases hs : o.send_buffer_size <;>
    cases hm : o.fwmark <;>
    simp [plan, ndReadPlan, recvPlan, recvReadPlan, sendPlan, sendReadPlan, markPlan,
      hr, hs, hm, eq_comm]

theorem setMark_mem_plan (dbg : Bool) (o : TcpOptions) (m : Nat) :
    OsCall.setMark m ∈ plan dbg o ↔ o.fwmark = some m := by
  cases dbg <;> cases hr : o.recv_buffer_size <;> cases hs : o.send_buffer_size <;>
    cases hm' : o.fwmark <;>
    simp [plan, ndReadPlan, recvPlan, recvReadPlan, sendPlan, sendReadPlan, markPlan,
      hr, hs, hm', eq_comm]

theorem no_readback_in_plan_false (o : TcpOptions) (c : OsCall)
    (h : c ∈ plan false o) : isReadbackCall c = false := by
  cases c with
  | getNodelay => exact absurd ((getNodelay_mem_plan false o).mp h) (by simp)
  | getRecvBuffer => exact absurd ((getRecvBuffer_mem_plan false o).mp h) (by simp)
  | getSendBuffer => exact absurd ((getSendBuffer_mem_plan false o).mp h) (by simp)
  | getMark => exact absurd ((getMark_mem_plan false o).mp h) (by simp)
  | setNodelay b => rfl
  | setRecvBuffer n => rfl
  | setSendBuffer n => rfl
  | setMark m => rfl

theorem foldl_plan_endState (dbg : Bool) (o : TcpOptions) (s : SockState) :
    List.foldl applyCallState s (plan dbg o) = endState o s := by
  cases dbg <;> cases hr : o.recv_buffer_size <;> cases hs : o.send_buffer_size <;>
    cases hm : o.fwmark <;>
    simp [plan, ndReadPlan, recvPlan, recvReadPlan, sendPlan, sendReadPlan, markPlan,
      hr, hs, hm, applyCallState, endState]

theorem failOf_noDelay_src (os : Os) (c : OsCall) (e : IoError)
    (h : failOf os c = some (ApplyTcpOptionsError.NoDelay e)) :
    ((∃ b, c = OsCall.setNodelay b) ∨ c = OsCall.getNodelay) ∧ os.ioFail c = some e := by
  cases c <;> simp [failOf] at h <;> simp [h]

theorem failOf_recvBuffer_src (os : Os) (c : OsCall) (e : IoError)
    (h : failOf os c = some (ApplyTcpOptionsError.RecvBuffer e)) :
    ((∃ n, c = OsCall.setRecvBuffer n) ∨ c = OsCall.getRecvBuffer) ∧ os.ioFail c = some e := by
  cases c <;> simp [failOf] at h <;> simp [h]

theorem failOf_sendBuffer_src (os : Os) (c : OsCall) (e : IoError)
    (h : failOf os c = some (ApplyTcpOptionsError.SendBuffer e)) :
    ((∃ n, c = OsCall.setSendBuffer n) ∨ c = OsCall.getSendBuffer) ∧ os.ioFail c = some e := by
  cases c <;> simp [failOf] at h <;> simp [h]

theorem failOf_mark_src (os : Os) (c : OsCall) (e : NixError)
    (h : failOf os c = some (ApplyTcpOptionsError.Mark e)) :
    ((∃ m, c = OsCall.setMark m) ∨ c = OsCall.getMark) ∧ os.nixFail c = some e := by
  cases c <;> simp [failOf] at h <;> simp [h]

/-- C1 counterexample: with debug logging disabled, the no-delay read-back
is an OS step that fails under this oracle, yet `apply` still returns
`Ok(())` - so it is not the case that `apply` returns Ok only if every
step, including the (claimed unconditional) read-back steps, succeeds:
the read-backs are skipped entirely when debug logging is off. -/
theorem claim_C1_counterexample :
    failOf osGetNodelayFails OsCall.getNodelay =
      some (ApplyTcpOptionsError.NoDelay ⟨"getsockopt(TCP_NODELAY) failed"⟩) ∧
    (apply osGetNodelayFails false ⟨true, none, none, none⟩ st0).result = Except.ok () :=
  ⟨rfl, rfl⟩

/-- C1 (amended): `apply` issues OS calls exactly along the fixed order of
`plan` (no-delay, then receive-buffer, then send-buffer, then mark, each
read-back being planned only while debug logging is enabled); it returns
Ok iff every planned step succeeds; and on an error the failing call is
the first planned call to fail, wrapped with its own failure kind, with no
later call attempted. -/
theorem claim_C1_fixed_order_first_failure (os : Os) (dbg : Bool) (o : TcpOptions)
    (s : SockState) :
    (∃ k, (apply os dbg o s).trace = List.take k (plan dbg o)) ∧
    ((apply os dbg o s).result = Except.ok () ↔ ∀ c ∈ plan dbg o, failOf os c = none) ∧
    (∀ err, (apply os dbg o s).result = Except.error err →
      ∃ l1 c l2, plan dbg o = l1 ++ c :: l2 ∧ (∀ c' ∈ l1, failOf os c' = none) ∧
        failOf os c = some err ∧ (apply os dbg o s).trace = l1 ++ [c]) := by
  rw [apply_eq_runPlan]
  refine ⟨runPlan_trace_take os (plan dbg o) s, runPlan_result_ok_iff os (plan dbg o) s, ?_⟩
  intro err h
  obtain ⟨l1, c, l2, h1, h2, h3, h4, _⟩ := runPlan_error_decomp os (plan dbg o) s err h
  exact ⟨l1, c, l2, h1, h2, h3, h4⟩

/-- Witness for C1: a run that fails on the receive-buffer set call indeed
decomposes the plan at that call. -/
theorem claim_C1_witness :
    ∃ l1 c l2, plan false ⟨true, some 4096, none, none⟩ = l1 ++ c :: l2 ∧
      (∀ c' ∈ l1, failOf osSetRecvFails c' = none) ∧
      failOf osSetRecvFails c =
        some (ApplyTcpOptionsError.RecvBuffer ⟨"setsockopt(SO_RCVBUF) failed"⟩) ∧
      (apply osSetRecvFails false ⟨true, some 4096, none, none⟩ st0).trace = l1 ++ [c] :=
  (claim_C1_fixed_order_first_failure osSetRecvFails false ⟨true, some 4096, none, none⟩
    st0).2.2 (ApplyTcpOptionsError.RecvBuffer ⟨"setsockopt(SO_RCVBUF) failed"⟩) (by decide)

/-- C2 counterexample: debug logging disabled, the OS would fail the
no-delay read-back, yet `apply` never issues that read-back (the trace is
just the set call) and returns Ok - so `apply` does not "always" read the
no-delay state back, and a read-back-only failure does not surface. -/
theorem claim_C2_counterexample :
    osGetNodelayFails.ioFail OsCall.getNodelay ≠ none ∧
    (apply osGetNodelayFails false ⟨false, none, none, none⟩ st0).trace =
      [OsCall.setNodelay false] ∧
    (apply osGetNodelayFails false ⟨false, none, none, none⟩ st0).result = Except.ok () :=
  ⟨by decide, rfl, rfl⟩

/-- C2 (amended): `apply` always issues the set-no-delay call with the
Option Set's boolean as its very first OS call; if that call fails the
result is the `NoDelay` kind wrapping the OS error and nothing else is
attempted; the no-delay read-back is issued iff debug logging is enabled,
and when it is issued its failure is also returned as the `NoDelay` kind
wrapping the OS error. -/
theorem claim_C2_nodelay_set_and_gated_readback (os : Os) (dbg : Bool) (o : TcpOptions)
    (s : SockState) :
    (∃ t, (apply os dbg o s).trace = OsCall.setNodelay o.nodelay :: t) ∧
    (∀ e, os.ioFail (OsCall.setNodelay o.nodelay) = some e →
      (apply os dbg o s).result = Except.error (ApplyTcpOptionsError.NoDelay e) ∧
      (apply os dbg o s).trace = [OsCall.setNodelay o.nodelay]) ∧
    (os.ioFail (OsCall.setNodelay o.nodelay) = none →
      (OsCall.getNodelay ∈ (apply os dbg o s).trace ↔ dbg = true)) ∧
    (∀ e, os.ioFail (OsCall.setNodelay o.nodelay) = none →
      os.ioFail OsCall.getNodelay = some e → dbg = true →
      (apply os dbg o s).result = Except.error (ApplyTcpOptionsError.NoDelay e)) := by
  refine ⟨?_, ?_, ?_, ?_⟩
  · rw [apply_eq_runPlan]
    exact runPlan_cons_trace os (OsCall.setNodelay o.nodelay) (ndReadPlan dbg o) s
  · intro e he
    simp [apply, he]
  · intro hn
    constructor
    · intro hmem
      exact (getNodelay_mem_plan dbg o).mp (mem_trace_mem_plan os dbg o s _ hmem)
    · intro hdbg
      subst hdbg
      rw [apply_eq_runPlan]
      have hf : failOf os (OsCall.setNodelay o.nodelay) = none := by simp [failOf, hn]
      have hnd : ndReadPlan true o = OsCall.getNodelay :: recvPlan true o := by
        simp [ndReadPlan]
      obtain ⟨t, ht⟩ := runPlan_cons_trace os OsCall.getNodelay (recvPlan true o)
        (applyCallState s (OsCall.setNodelay o.nodelay))
      have h1 : (runPlan os (plan true o) s).trace =
          OsCall.setNodelay o.nodelay ::
            (runPlan os (ndReadPlan true o)
              (applyCallState s (OsCall.setNodelay o.nodelay))).trace := by
        simp only [plan, runPlan, hf]
      rw [h1, hnd, ht]
      simp
  · intro e hn hg hdbg
    subst hdbg
    rw [apply_eq_runPlan]
    have hf : failOf os (OsCall.setNodelay o.nodelay) = none := by simp [failOf, hn]
    have hg' : failOf os OsCall.getNodelay =
        some (ApplyTcpOptionsError.NoDelay e) := by simp [failOf, hg]
    simp [plan, ndReadPlan, runPlan, hf, hg']

/-- Witness for C2: with the no-delay set call succeeding, debug logging
enabled and the read-back failing, `apply` returns the `NoDelay` kind
wrapping that OS error. -/
theorem claim_C2_witness :
    (apply osGetNodelayFails true ⟨true, none, none, none⟩ st0).result =
      Except.error (ApplyTcpOptionsError.NoDelay ⟨"getsockopt(TCP_NODELAY) failed"⟩) :=
  (claim_C2_nodelay_set_and_gated_readback osGetNodelayFails true ⟨true, none, none, none⟩
    st0).2.2.2 ⟨"getsockopt(TCP_NODELAY) failed"⟩ (by decide) (by decide) rfl

theorem runPlan_reach (os : Os) (c : OsCall) (l2 : List OsCall) :
    ∀ (l1 : List OsCall) (s : SockState), (∀ c' ∈ l1, failOf os c' = none) →
    c ∈ (runPlan os (l1 ++ c :: l2) s).trace := by
  intro l1
  induction l1 with
  | nil =>
    intro s _
    obtain ⟨t, ht⟩ := runPlan_cons_trace os c l2 s
    simp [ht]
  | cons c0 rest ih =>
    intro s h
    have h0 : failOf os c0 = none := h c0 (by simp)
    have hrest : ∀ c' ∈ rest, failOf os c' = none := fun c' hm => h c' (by simp [hm])
    simp only [List.cons_append, runPlan, h0]
    simp only [List.mem_cons]
    exact Or.inr (ih (applyCallState s c0) hrest)

theorem plan_decomp_recvSet (dbg : Bool) (o : TcpOptions) (n : Nat)
    (hr : o.recv_buffer_size = some n) :
    plan dbg o = (OsCall.setNodelay o.nodelay :: (if dbg then [OsCall.getNodelay] else []))
      ++ OsCall.setRecvBuffer n :: recvReadPlan dbg o := by
  cases dbg <;> simp [plan, ndReadPlan, recvPlan, hr]

theorem plan_decomp_recvGet (o : TcpOptions) :
    plan true o = (OsCall.setNodelay o.nodelay :: OsCall.getNodelay ::
        (match o.recv_buffer_size with | some k => [OsCall.setRecvBuffer k] | none => []))
      ++ OsCall.getRecvBuffer :: sendPlan true o := by
  cases hr : o.recv_buffer_size <;>
    simp [plan, ndReadPlan, recvPlan, recvReadPlan, hr]

theorem plan_decomp_sendSet (dbg : Bool) (o : TcpOptions) (n : Nat)
    (hsend : o.send_buffer_size = some n) :
    plan dbg o = (OsCall.setNodelay o.nodelay :: ((if dbg then [OsCall.getNodelay] else [])
        ++ (match o.recv_buffer_size with | some k => [OsCall.setRecvBuffer k] | none => [])
        ++ (if dbg then [OsCall.getRecvBuffer] else [])))
      ++ OsCall.setSendBuffer n :: sendReadPlan dbg o := by
  cases dbg <;> cases hr : o.recv_buffer_size <;>
    simp [plan, ndReadPlan, recvPlan, recvReadPlan, sendPlan, hr, hsend]

theorem plan_decomp_sendGet (o : TcpOptions) :
    plan true o = (OsCall.setNodelay o.nodelay :: OsCall.getNodelay ::
        ((match o.recv_buffer_size with | some k => [OsCall.setRecvBuffer k] | none => [])
          ++ OsCall.getRecvBuffer ::
            (match o.send_buffer_size with | some k => [OsCall.setSendBuffer k] | none => [])))
      ++ OsCall.getSendBuffer :: markPlan true o := by
  cases hr : o.recv_buffer_size <;> cases hs : o.send_buffer_size <;>
    simp [plan, ndReadPlan, recvPlan, recvReadPlan, sendPlan, sendReadPlan, hr, hs]

theorem plan_decomp_markSet (dbg : Bool) (o : TcpOptions) (m : Nat)
    (hm : o.fwmark = some m) :
    plan dbg o = (OsCall.setNodelay o.nodelay :: ((if dbg then [OsCall.getNodelay] else [])
        ++ (match o.recv_buffer_size with | some k => [OsCall.setRecvBuffer k] | none => [])
        ++ (if dbg then [OsCall.getRecvBuffer] else [])
        ++ (match o.send_buffer_size with | some k => [OsCall.setSendBuffer k] | none => [])
        ++ (if dbg then [OsCall.getSendBuffer] else [])))
      ++ OsCall.setMark m :: (if dbg then [OsCall.getMark] else []) := by
  cases dbg <;> cases hr : o.recv_buffer_size <;> cases hs : o.send_buffer_size <;>
    simp [plan, ndReadPlan, recvPlan, recvReadPlan, sendPlan, sendReadPlan, markPlan,
      hr, hs, hm]

theorem plan_decomp_markGet (o : TcpOptions) :
    plan true o = (OsCall.setNodelay o.nodelay :: OsCall.getNodelay ::
        ((match o.recv_buffer_size with | some k => [OsCall.setRecvBuffer k] | none => [])
          ++ OsCall.getRecvBuffer ::
            ((match o.send_buffer_size with | some k => [OsCall.setSendBuffer k] | none => [])
              ++ OsCall.getSendBuffer ::
                (match o.fwmark with | some k => [OsCall.setMark k] | none => []))))
      ++ OsCall.getMark :: [] := by
  cases hr : o.recv_buffer_size <;> cases hs : o.send_buffer_size <;> cases hm : o.fwmark <;>
    simp [plan, ndReadPlan, recvPlan, recvReadPlan, sendPlan, sendReadPlan, markPlan,
      hr, hs, hm]

theorem sendReadbackNonLinux_trace (os : Os) (dbg : Bool) (s : SockState) (tr : List OsCall) :
    ∀ c ∈ (sendReadbackNonLinux os dbg s tr).trace, c ∈ tr ∨ isMarkCall c = false := by
  intro c hc
  cases dbg with
  | false =>
    simp [sendReadbackNonLinux] at hc
    exact Or.inl hc
  | true =>
    cases h : os.ioFail OsCall.getSendBuffer with
    | some e =>
      simp [sendReadbackNonLinux, h] at hc
      rcases hc with hc | hc
      · exact Or.inl hc
      · exact Or.inr (by simp [hc, isMarkCall])
    | none =>
      simp [sendReadbackNonLinux, h] at hc
      rcases hc with hc | hc
      · exact Or.inl hc
      · exact Or.inr (by simp [hc, isMarkCall])

theorem sendStageNonLinux_trace (os : Os) (dbg : Bool) (o : TcpOptionsNonLinux)
    (s : SockState) (tr : List OsCall) :
    ∀ c ∈ (sendStageNonLinux os dbg o s tr).trace, c ∈ tr ∨ isMarkCall c = false := by
  intro c hc
  cases hn : o.send_buffer_size with
  | none =>
    simp [sendStageNonLinux, hn] at hc
    exact sendReadbackNonLinux_trace os dbg s tr c hc
  | some n =>
    cases h : os.ioFail (OsCall.setSendBuffer n) with
    | some e =>
      simp [sendStageNonLinux, hn, h] at hc
      rcases hc with hc | hc
      · exact Or.inl hc
      · exact Or.inr (by simp [hc, isMarkCall])
    | none =>
      simp [sendStageNonLinux, hn, h] at hc
      rcases sendReadbackNonLinux_trace os dbg _ (tr ++ [OsCall.setSendBuffer n]) c hc with
        hc' | hc'
      · rcases List.mem_append.mp hc' with hc'' | hc''
        · exact Or.inl hc''
        · simp at hc''
          exact Or.inr (by simp [hc'', isMarkCall])
      · exact Or.inr hc'

theorem recvReadbackNonLinux_trace (os : Os) (dbg : Bool) (o : TcpOptionsNonLinux)
    (s : SockState) (tr : List OsCall) :
    ∀ c ∈ (recvReadbackNonLinux os dbg o s tr).trace, c ∈ tr ∨ isMarkCall c = false := by
  intro c hc
  cases dbg with
  | false =>
    simp [recvReadbackNonLinux] at hc
    exact sendStageNonLinux_trace os false o s tr c hc
  | true =>
    cases h : os.ioFail OsCall.getRecvBuffer with
    | some e =>
      simp [recvReadbackNonLinux, h] at hc
      rcases hc with hc | hc
      · exact Or.inl hc
      · exact Or.inr (by simp [hc, isMarkCall])
    | none =>
      simp [recvReadbackNonLinux, h] at hc
      rcases sendStageNonLinux_trace os true o s (tr ++ [OsCall.getRecvBuffer]) c hc with
        hc' | hc'
      · rcases List.mem_append.mp hc' with hc'' | hc''
        · exact Or.inl hc''
        · simp at hc''
          exact Or.inr (by simp [hc'', isMarkCall])
      · exact Or.inr hc'

theorem recvStageNonLinux_trace (os : Os) (dbg : Bool) (o : TcpOptionsNonLinux)
    (s : SockState) (tr : List OsCall) :
    ∀ c ∈ (recvStageNonLinux os dbg o s tr).trace, c ∈ tr ∨ isMarkCall c = false := by
  intro c hc
  cases hn : o.recv_buffer_size with
  | none =>
    simp [recvStageNonLinux, hn] at hc
    exact recvReadbackNonLinux_trace os dbg o s tr c hc
  | some n =>
    cases h : os.ioFail (OsCall.setRecvBuffer n) with
    | some e =>
      simp [recvStageNonLinux, hn, h] at hc
      rcases hc with hc | hc
      · exact Or.inl hc
      · exact Or.inr (by simp [hc, isMarkCall])
    | none =>
      simp [recvStageNonLinux, hn, h] at hc
      rcases recvReadbackNonLinux_trace os dbg o _ (tr ++ [OsCall.setRecvBuffer n]) c hc with
        hc' | hc'
      · rcases List.mem_append.mp hc' with hc'' | hc''
        · exact Or.inl hc''
        · simp at hc''
          exact Or.inr (by simp [hc'', isMarkCall])
      · exact Or.inr hc'

theorem nodelayReadbackNonLinux_trace (os : Os) (dbg : Bool) (o : TcpOptionsNonLinux)
    (s : SockState) (tr : List OsCall) :
    ∀ c ∈ (nodelayReadbackNonLinux os dbg o s tr).trace, c ∈ tr ∨ isMarkCall c = false := by
  intro c hc
  cases dbg with
  | false =>
    simp [nodelayReadbackNonLinux] at hc
    exact recvStageNonLinux_trace os false o s tr c hc
  | true =>
    cases h : os.ioFail OsCall.getNodelay with
    | some e =>
      simp [nodelayReadbackNonLinux, h] at hc
      rcases hc with hc | hc
      · exact Or.inl hc
      · exact Or.inr (by simp [hc, isMarkCall])
    | none =>
      simp [nodelayReadbackNonLinux, h] at hc
      rcases recvStageNonLinux_trace os true o s (tr ++ [OsCall.getNodelay]) c hc with
        hc' | hc'
      · rcases List.mem_append.mp hc' with hc'' | hc''
        · exact Or.inl hc''
        · simp at hc''
          exact Or.inr (by simp [hc'', isMarkCall])
      · exact Or.inr hc'

theorem applyNonLinux_no_mark (os : Os) (dbg : Bool) (o : TcpOptionsNonLinux)
    (s : SockState) :
    ∀ c ∈ (applyNonLinux os dbg o s).trace, isMarkCall c = false := by
  intro c hc
  cases h : os.ioFail (OsCall.setNodelay o.nodelay) with
  | some e =>
    simp [applyNonLinux, h] at hc
    simp [hc, isMarkCall]
  | none =>
    simp [applyNonLinux, h] at hc
    rcases nodelayReadbackNonLinux_trace os dbg o _ [OsCall.setNodelay o.nodelay] c hc with
      hc' | hc'
    · simp at hc'
      simp [hc', isMarkCall]
    · exact hc'

theorem runPlan_first_fail (os : Os) (err : ApplyTcpOptionsError) (c : OsCall)
    (l2 : List OsCall) :
    ∀ (l1 : List OsCall) (s : SockState), (∀ c' ∈ l1, failOf os c' = none) →
    failOf os c = some err →
    (runPlan os (l1 ++ c :: l2) s).result = Except.error err := by
  intro l1
  induction l1 with
  | nil =>
    intro s _ hc
    simp [runPlan, hc]
  | cons c0 rest ih =>
    intro s h hc
    have h0 : failOf os c0 = none := h c0 (by simp)
    have hrest : ∀ c' ∈ rest, failOf os c' = none := fun c' hm => h c' (by simp [hm])
    simp only [List.cons_append, runPlan, h0]
    exact ih (applyCallState s c0) hrest hc

theorem pre_recvSet_ok (os : Os) (dbg : Bool) (o : TcpOptions)
    (hs1 : os.ioFail (OsCall.setNodelay o.nodelay) = none)
    (hg1 : dbg = true → os.ioFail OsCall.getNodelay = none) :
    ∀ c' ∈ (OsCall.setNodelay o.nodelay :: (if dbg then [OsCall.getNodelay] else [])),
      failOf os c' = none := by
  intro c' hc'
  simp only [List.mem_cons] at hc'
  rcases hc' with rfl | hc'
  · simp [failOf, hs1]
  · cases dbg
    · simp at hc'
    · simp at hc'
      simp [hc', failOf, hg1 rfl]

theorem pre_recvGet_ok (os : Os) (o : TcpOptions)
    (hs1 : os.ioFail (OsCall.setNodelay o.nodelay) = none)
    (hg1 : os.ioFail OsCall.getNodelay = none)
    (hrs : ∀ k, o.recv_buffer_size = some k → os.ioFail (OsCall.setRecvBuffer k) = none) :
    ∀ c' ∈ (OsCall.setNodelay o.nodelay :: OsCall.getNodelay ::
        (match o.recv_buffer_size with | some k => [OsCall.setRecvBuffer k] | none => [])),
      failOf os c' = none := by
  intro c' hc'
  simp only [List.mem_cons] at hc'
  rcases hc' with rfl | rfl | hc'
  · simp [failOf, hs1]
  · simp [failOf, hg1]
  · cases hr : o.recv_buffer_size with
    | none =>
      rw [hr] at hc'
      simp at hc'
    | some k =>
      rw [hr] at hc'
      simp at hc'
      simp [hc', failOf, hrs k hr]

theorem pre_sendSet_ok (os : Os) (dbg : Bool) (o : TcpOptions)
    (hs1 : os.ioFail (OsCall.setNodelay o.nodelay) = none)
    (hg1 : dbg = true → os.ioFail OsCall.getNodelay = none)
    (hrs : ∀ k, o.recv_buffer_size = some k → os.ioFail (OsCall.setRecvBuffer k) = none)
    (hgr : dbg = true → os.ioFail OsCall.getRecvBuffer = none) :
    ∀ c' ∈ (OsCall.setNodelay o.nodelay :: ((if dbg then [OsCall.getNodelay] else [])
        ++ (match o.recv_buffer_size with | some k => [OsCall.setRecvBuffer k] | none => [])
        ++ (if dbg then [OsCall.getRecvBuffer] else []))),
      failOf os c' = none := by
  intro c' hc'
  simp only [List.mem_cons, List.mem_append, or_assoc] at hc'
  rcases hc' with rfl | hc' | hc' | hc'
  · simp [failOf, hs1]
  · cases dbg
    · simp at hc'
    · simp at hc'
      simp [hc', failOf, hg1 rfl]
  · cases hr : o.recv_buffer_size with
    | none =>
      rw [hr] at hc'
      simp at hc'
    | some k =>
      rw [hr] at hc'
      simp at hc'
      simp [hc', failOf, hrs k hr]
  · cases dbg
    · simp at hc'
    · simp at hc'
      simp [hc', failOf, hgr rfl]

theorem pre_sendGet_ok (os : Os) (o : TcpOptions)
    (hs1 : os.ioFail (OsCall.setNodelay o.nodelay) = none)
    (hg1 : os.ioFail OsCall.getNodelay = none)
    (hrs : ∀ k, o.recv_buffer_size = some k → os.ioFail (OsCall.setRecvBuffer k) = none)
    (hgr : os.ioFail OsCall.getRecvBuffer = none)
    (hss : ∀ k, o.send_buffer_size = some k → os.ioFail (OsCall.setSendBuffer k) = none) :
    ∀ c' ∈ (OsCall.setNodelay o.nodelay :: OsCall.getNodelay ::
        ((match o.recv_buffer_size with | some k => [OsCall.setRecvBuffer k] | none => [])
          ++ OsCall.getRecvBuffer ::
            (match o.send_buffer_size with | some k => [OsCall.setSendBuffer k] | none => []))),
      failOf os c' = none := by
  intro c' hc'
  simp only [List.mem_cons, List.mem_append, or_assoc] at hc'
  rcases hc' with rfl | rfl | hc' | rfl | hc'
  · simp [failOf, hs1]
  · simp [failOf, hg1]
  · cases hr : o.recv_buffer_size with
    | none =>
      rw [hr] at hc'
      simp at hc'
    | some k =>
      rw [hr] at hc'
      simp at hc'
      simp [hc', failOf, hrs k hr]
  · simp [failOf, hgr]
  · cases hsn : o.send_buffer_size with
    | none =>
      rw [hsn] at hc'
      simp at hc'
    | some k =>
      rw [hsn] at hc'
      simp at hc'
      simp [hc', failOf, hss k hsn]

/-- C3 counterexample: with the receive-buffer field absent and debug
logging disabled, the receive-buffer read-back - which the OS would fail -
is never issued and `apply` returns Ok, contradicting that `apply`
"afterwards always reads back the current buffer size whether or not a
size was requested" and that such a read-back failure is returned. -/
theorem claim_C3_counterexample :
    osGetRecvFails.ioFail OsCall.getRecvBuffer ≠ none ∧
    OsCall.getRecvBuffer ∉ (apply osGetRecvFails false ⟨true, none, none, none⟩ st0).trace ∧
    (apply osGetRecvFails false ⟨true, none, none, none⟩ st0).result = Except.ok () :=
  ⟨by decide, by decide, rfl⟩

/-- C3 (amended): for each buffer family, `apply` issues a set-buffer-size
call iff the corresponding optional field is present (assuming the earlier
stages succeed so that the stage is reached), with the field's exact
value; the read-back of that family is issued iff debug logging is enabled
(again assuming the stage is reached); a returned `RecvBuffer` or
`SendBuffer` failure originates from that family's set call or read-back
at the OS level; and, conversely, a failing set call of a requested size,
or a failing read-back when it is issued, causes `apply` to return that
family's failure kind wrapping the OS error. -/
theorem claim_C3_buffer_stages (os : Os) (dbg : Bool) (o : TcpOptions) (s : SockState) :
    (∀ n, OsCall.setRecvBuffer n ∈ (apply os dbg o s).trace → o.recv_buffer_size = some n) ∧
    (∀ n, OsCall.setSendBuffer n ∈ (apply os dbg o s).trace → o.send_buffer_size = some n) ∧
    (∀ n, o.recv_buffer_size = some n →
      os.ioFail (OsCall.setNodelay o.nodelay) = none →
      (dbg = true → os.ioFail OsCall.getNodelay = none) →
      OsCall.setRecvBuffer n ∈ (apply os dbg o s).trace) ∧
    (os.ioFail (OsCall.setNodelay o.nodelay) = none →
      (dbg = true → os.ioFail OsCall.getNodelay = none) →
      (∀ k, o.recv_buffer_size = some k → os.ioFail (OsCall.setRecvBuffer k) = none) →
      (OsCall.getRecvBuffer ∈ (apply os dbg o s).trace ↔ dbg = true)) ∧
    (∀ n, o.send_buffer_size = some n →
      os.ioFail (OsCall.setNodelay o.nodelay) = none →
      (dbg = true → os.ioFail OsCall.getNodelay = none) →
      (∀ k, o.recv_buffer_size = some k → os.ioFail (OsCall.setRecvBuffer k) = none) →
      (dbg = true → os.ioFail OsCall.getRecvBuffer = none) →
      OsCall.setSendBuffer n ∈ (apply os dbg o s).trace) ∧
    (os.ioFail (OsCall.setNodelay o.nodelay) = none →
      (dbg = true → os.ioFail OsCall.getNodelay = none) →
      (∀ k, o.recv_buffer_size = some k → os.ioFail (OsCall.setRecvBuffer k) = none) →
      (dbg = true → os.ioFail OsCall.getRecvBuffer = none) →
      (∀ k, o.send_buffer_size = some k → os.ioFail (OsCall.setSendBuffer k) = none) →
      (OsCall.getSendBuffer ∈ (apply os dbg o s).trace ↔ dbg = true)) ∧
    (∀ e, (apply os dbg o s).result = Except.error (ApplyTcpOptionsError.RecvBuffer e) →
      (∃ n, o.recv_buffer_size = some n ∧ os.ioFail (OsCall.setRecvBuffer n) = some e) ∨
        os.ioFail OsCall.getRecvBuffer = some e) ∧
    (∀ e, (apply os dbg o s).result = Except.error (ApplyTcpOptionsError.SendBuffer e) →
      (∃ n, o.send_buffer_size = some n ∧ os.ioFail (OsCall.setSendBuffer n) = some e) ∨
        os.ioFail OsCall.getSendBuffer = some e) ∧
    (∀ n e, o.recv_buffer_size = some n →
      os.ioFail (OsCall.setNodelay o.nodelay) = none →
      (dbg = true → os.ioFail OsCall.getNodelay = none) →
      os.ioFail (OsCall.setRecvBuffer n) = some e →
      (apply os dbg o s).result = Except.error (ApplyTcpOptionsError.RecvBuffer e)) ∧
    (∀ e, dbg = true →
      os.ioFail (OsCall.setNodelay o.nodelay) = none →
      os.ioFail OsCall.getNodelay = none →
      (∀ k, o.recv_buffer_size = some k → os.ioFail (OsCall.setRecvBuffer k) = none) →
      os.ioFail OsCall.getRecvBuffer = some e →
      (apply os dbg o s).result = Except.error (ApplyTcpOptionsError.RecvBuffer e)) ∧
    (∀ n e, o.send_buffer_size = some n →
      os.ioFail (OsCall.setNodelay o.nodelay) = none →
      (dbg = true → os.ioFail OsCall.getNodelay = none) →
      (∀ k, o.recv_buffer_size = some k → os.ioFail (OsCall.setRecvBuffer k) = none) →
      (dbg = true → os.ioFail OsCall.getRecvBuffer = none) →
      os.ioFail (OsCall.setSendBuffer n) = some e →
      (apply os dbg o s).result = Except.error (ApplyTcpOptionsError.SendBuffer e)) ∧
    (∀ e, dbg = true →
      os.ioFail (OsCall.setNodelay o.nodelay) = none →
      os.ioFail OsCall.getNodelay = none →
      (∀ k, o.recv_buffer_size = some k → os.ioFail (OsCall.setRecvBuffer k) = none) →
      os.ioFail OsCall.getRecvBuffer = none →
      (∀ k, o.send_buffer_size = some k → os.ioFail (OsCall.setSendBuffer k) = none) →
      os.ioFail OsCall.getSendBuffer = some e →
      (apply os dbg o s).result = Except.error (ApplyTcpOptionsError.SendBuffer e)) := by
  refine ⟨?_, ?_, ?_, ?_, ?_, ?_, ?_, ?_, ?_, ?_, ?_, ?_⟩
  · intro n hmem
    exact (setRecvBuffer_mem_plan dbg o n).mp (mem_trace_mem_plan os dbg o s _ hmem)
  · intro n hmem
    exact (setSendBuffer_mem_plan dbg o n).mp (mem_trace_mem_plan os dbg o s _ hmem)
  · intro n hr hs1 hg1
    rw [apply_eq_runPlan, plan_decomp_recvSet dbg o n hr]
    apply runPlan_reach
    intro c' hc'
    cases dbg with
    | false =>
      simp at hc'
      simp [hc', failOf, hs1]
    | true =>
      simp at hc'
      rcases hc' with hc' | hc' <;> simp [hc', failOf, hs1, hg1 rfl]
  · intro hs1 hg1 hrs
    constructor
    · intro hmem
      exact (getRecvBuffer_mem_plan dbg o).mp (mem_trace_mem_plan os dbg o s _ hmem)
    · intro hdbg
      subst hdbg
      rw [apply_eq_runPlan, plan_decomp_recvGet o]
      apply runPlan_reach
      intro c' hc'
      cases hr : o.recv_buffer_size with
      | none =>
        simp [hr] at hc'
        rcases hc' with hc' | hc' <;> simp [hc', failOf, hs1, hg1 rfl]
      | some k =>
        simp [hr] at hc'
        rcases hc' with hc' | hc' | hc' <;>
          simp [hc', failOf, hs1, hg1 rfl, hrs k hr]
  · intro n hsend hs1 hg1 hrs hgr
    rw [apply_eq_runPlan, plan_decomp_sendSet dbg o n hsend]
    apply runPlan_reach
    intro c' hc'
    cases dbg with
    | false =>
      cases hr : o.recv_buffer_size with
      | none =>
        simp [hr] at hc'
        simp [hc', failOf, hs1]
      | some k =>
        simp [hr] at hc'
        rcases hc' with hc' | hc' <;> simp [hc', failOf, hs1, hrs k hr]
    | true =>
      cases hr : o.recv_buffer_size with
      | none =>
        simp [hr] at hc'
        rcases hc' with hc' | hc' | hc' <;>
          simp [hc', failOf, hs1, hg1 rfl, hgr rfl]
      | some k =>
        simp [hr] at hc'
        rcases hc' with hc' | hc' | hc' | hc' <;>
          simp [hc', failOf, hs1, hg1 rfl, hrs k hr, hgr rfl]
  · intro hs1 hg1 hrs hgr hss
    constructor
    · intro hmem
      exact (getSendBuffer_mem_plan dbg o).mp (mem_trace_mem_plan os dbg o s _ hmem)
    · intro hdbg
      subst hdbg
      rw [apply_eq_runPlan, plan_decomp_sendGet o]
      apply runPlan_reach
      intro c' hc'
      cases hr : o.recv_buffer_size with
      | none =>
        cases hsn : o.send_buffer_size with
        | none =>
          simp [hr, hsn] at hc'
          rcases hc' with hc' | hc' | hc' <;>
            simp [hc', failOf, hs1, hg1 rfl, hgr rfl]
        | some k =>
          simp [hr, hsn] at hc'
          rcases hc' with hc' | hc' | hc' | hc' <;>
            simp [hc', failOf, hs1, hg1 rfl, hgr rfl, hss k hsn]
      | some k =>
        cases hsn : o.send_buffer_size with
        | none =>
          simp [hr, hsn] at hc'
          rcases hc' with hc' | hc' | hc' | hc' <;>
            simp [hc', failOf, hs1, hg1 rfl, hrs k hr, hgr rfl]
        | some k' =>
          simp [hr, hsn] at hc'
          rcases hc' with hc' | hc' | hc' | hc' | hc' <;>
            simp [hc', failOf, hs1, hg1 rfl, hrs k hr, hgr rfl, hss k' hsn]
  · intro e herr
    rw [apply_eq_runPlan] at herr
    obtain ⟨l1, c, l2, hl, _, h2, _, _⟩ :=
      runPlan_error_decomp os (plan dbg o) s (ApplyTcpOptionsError.RecvBuffer e) herr
    have hcmem : c ∈ plan dbg o := by
      rw [hl]
      simp
    obtain ⟨hsrc, hio⟩ := failOf_recvBuffer_src os c e h2
    rcases hsrc with ⟨n, rfl⟩ | rfl
    · exact Or.inl ⟨n, (setRecvBuffer_mem_plan dbg o n).mp hcmem, hio⟩
    · exact Or.inr hio
  · intro e herr
    rw [apply_eq_runPlan] at herr
    obtain ⟨l1, c, l2, hl, _, h2, _, _⟩ :=
      runPlan_error_decomp os (plan dbg o) s (ApplyTcpOptionsError.SendBuffer e) herr
    have hcmem : c ∈ plan dbg o := by
      rw [hl]
      simp
    obtain ⟨hsrc, hio⟩ := failOf_sendBuffer_src os c e h2
    rcases hsrc with ⟨n, rfl⟩ | rfl
    · exact Or.inl ⟨n, (setSendBuffer_mem_plan dbg o n).mp hcmem, hio⟩
    · exact Or.inr hio
  · intro n e hr hs1 hg1 hfail
    rw [apply_eq_runPlan, plan_decomp_recvSet dbg o n hr]
    exact runPlan_first_fail os (ApplyTcpOptionsError.RecvBuffer e) (OsCall.setRecvBuffer n)
      (recvReadPlan dbg o) _ s (pre_recvSet_ok os dbg o hs1 hg1) (by simp [failOf, hfail])
  · intro e hdbg hs1 hg1 hrs hfail
    subst hdbg
    rw [apply_eq_runPlan, plan_decomp_recvGet o]
    exact runPlan_first_fail os (ApplyTcpOptionsError.RecvBuffer e) OsCall.getRecvBuffer
      (sendPlan true o) _ s (pre_recvGet_ok os o hs1 hg1 hrs) (by simp [failOf, hfail])
  · intro n e hsend hs1 hg1 hrs hgr hfail
    rw [apply_eq_runPlan, plan_decomp_sendSet dbg o n hsend]
    exact runPlan_first_fail os (ApplyTcpOptionsError.SendBuffer e) (OsCall.setSendBuffer n)
      (sendReadPlan dbg o) _ s (pre_sendSet_ok os dbg o hs1 hg1 hrs hgr)
      (by simp [failOf, hfail])
  · intro e hdbg hs1 hg1 hrs hgr hss hfail
    subst hdbg
    rw [apply_eq_runPlan, plan_decomp_sendGet o]
    exact runPlan_first_fail os (ApplyTcpOptionsError.SendBuffer e) OsCall.getSendBuffer
      (markPlan true o) _ s (pre_sendGet_ok os o hs1 hg1 hrs hgr hss)
      (by simp [failOf, hfail])

/-- Witness for C3: with every OS call succeeding and a receive-buffer size
requested, the set call with exactly that size is issued. -/
theorem claim_C3_witness :
    OsCall.setRecvBuffer 4096 ∈
      (apply osAllOk true ⟨true, some 4096, some 1, some 2⟩ st0).trace :=
  (claim_C3_buffer_stages osAllOk true ⟨true, some 4096, some 1, some 2⟩ st0).2.2.1
    4096 rfl rfl (fun _ => rfl)

theorem premark_prefix_ok (os : Os) (dbg : Bool) (o : TcpOptions)
    (hs1 : os.ioFail (OsCall.setNodelay o.nodelay) = none)
    (hg1 : dbg = true → os.ioFail OsCall.getNodelay = none)
    (hrs : ∀ k, o.recv_buffer_size = some k → os.ioFail (OsCall.setRecvBuffer k) = none)
    (hgr : dbg = true → os.ioFail OsCall.getRecvBuffer = none)
    (hss : ∀ k, o.send_buffer_size = some k → os.ioFail (OsCall.setSendBuffer k) = none)
    (hgs : dbg = true → os.ioFail OsCall.getSendBuffer = none) :
    ∀ c' ∈ (OsCall.setNodelay o.nodelay :: ((if dbg then [OsCall.getNodelay] else [])
        ++ (match o.recv_buffer_size with | some k => [OsCall.setRecvBuffer k] | none => [])
        ++ (if dbg then [OsCall.getRecvBuffer] else [])
        ++ (match o.send_buffer_size with | some k => [OsCall.setSendBuffer k] | none => [])
        ++ (if dbg then [OsCall.getSendBuffer] else []))),
      failOf os c' = none := by
  intro c' hc'
  simp only [List.mem_cons, List.mem_append, or_assoc] at hc'
  rcases hc' with rfl | hc' | hc' | hc' | hc' | hc'
  · simp [failOf, hs1]
  · cases dbg
    · simp at hc'
    · simp at hc'
      simp [hc', failOf, hg1 rfl]
  · cases hr : o.recv_buffer_size with
    | none =>
      rw [hr] at hc'
      simp at hc'
    | some k =>
      rw [hr] at hc'
      simp at hc'
      simp [hc', failOf, hrs k hr]
  · cases dbg
    · simp at hc'
    · simp at hc'
      simp [hc', failOf, hgr rfl]
  · cases hsn : o.send_buffer_size with
    | none =>
      rw [hsn] at hc'
      simp at hc'
    | some k =>
      rw [hsn] at hc'
      simp at hc'
      simp [hc', failOf, hss k hsn]
  · cases dbg
    · simp at hc'
    · simp at hc'
      simp [hc', failOf, hgs rfl]

theorem premarkGet_prefix_ok (os : Os) (o : TcpOptions)
    (hs1 : os.ioFail (OsCall.setNodelay o.nodelay) = none)
    (hg1 : os.ioFail OsCall.getNodelay = none)
    (hrs : ∀ k, o.recv_buffer_size = some k → os.ioFail (OsCall.setRecvBuffer k) = none)
    (hgr : os.ioFail OsCall.getRecvBuffer = none)
    (hss : ∀ k, o.send_buffer_size = some k → os.ioFail (OsCall.setSendBuffer k) = none)
    (hgs : os.ioFail OsCall.getSendBuffer = none)
    (hms : ∀ k, o.fwmark = some k → os.nixFail (OsCall.setMark k) = none) :
    ∀ c' ∈ (OsCall.setNodelay o.nodelay :: OsCall.getNodelay ::
        ((match o.recv_buffer_size with | some k => [OsCall.setRecvBuffer k] | none => [])
          ++ OsCall.getRecvBuffer ::
            ((match o.send_buffer_size with | some k => [OsCall.setSendBuffer k] | none => [])
              ++ OsCall.getSendBuffer ::
                (match o.fwmark with | some k => [OsCall.setMark k] | none => [])))),
      failOf os c' = none := by
  intro c' hc'
  simp only [List.mem_cons, List.mem_append, or_assoc] at hc'
  rcases hc' with rfl | rfl | hc' | rfl | hc' | rfl | hc'
  · simp [failOf, hs1]
  · simp [failOf, hg1]
  · cases hr : o.recv_buffer_size with
    | none =>
      rw [hr] at hc'
      simp at hc'
    | some k =>
      rw [hr] at hc'
      simp at hc'
      simp [hc', failOf, hrs k hr]
  · simp [failOf, hgr]
  · cases hsn : o.send_buffer_size with
    | none =>
      rw [hsn] at hc'
      simp at hc'
    | some k =>
      rw [hsn] at hc'
      simp at hc'
      simp [hc', failOf, hss k hsn]
  · simp [failOf, hgs]
  · cases hm : o.fwmark with
    | none =>
      rw [hm] at hc'
      simp at hc'
    | some k =>
      rw [hm] at hc'
      simp at hc'
      simp [hc', failOf, hms k hm]

/-- C4 counterexample: with a mark requested, the mark set call succeeding,
the OS poised to fail the mark read-back, and debug logging disabled,
`apply` never issues the mark read-back and returns Ok - contradicting
that it "always reads the current mark back". -/
theorem claim_C4_counterexample :
    osGetMarkFails.nixFail OsCall.getMark ≠ none ∧
    OsCall.getMark ∉ (apply osGetMarkFails false ⟨true, none, none, some 5⟩ st0).trace ∧
    (apply osGetMarkFails false ⟨true, none, none, some 5⟩ st0).result = Except.ok () :=
  ⟨by decide, by decide, rfl⟩

/-- C4 (amended): on Linux, `apply` issues the `SO_MARK` set call iff
`fwmark` is present (assuming the earlier stages succeed so that the stage
is reached), the mark read-back is issued iff debug logging is enabled, a
returned `Mark` failure originates from the mark set call or the mark
read-back, and conversely a failing mark set call - or a failing mark
read-back when it is issued - causes `apply` to return the `Mark` kind
wrapping that OS error; on a non-Linux build no mark call is ever issued
and the error type has no mark kind, so requesting a mark is structurally
impossible. -/
theorem claim_C4_mark_stage (os : Os) (dbg : Bool) (o : TcpOptions) (s : SockState) :
    (∀ m, OsCall.setMark m ∈ (apply os dbg o s).trace → o.fwmark = some m) ∧
    (∀ m, o.fwmark = some m →
      os.ioFail (OsCall.setNodelay o.nodelay) = none →
      (dbg = true → os.ioFail OsCall.getNodelay = none) →
      (∀ k, o.recv_buffer_size = some k → os.ioFail (OsCall.setRecvBuffer k) = none) →
      (dbg = true → os.ioFail OsCall.getRecvBuffer = none) →
      (∀ k, o.send_buffer_size = some k → os.ioFail (OsCall.setSendBuffer k) = none) →
      (dbg = true → os.ioFail OsCall.getSendBuffer = none) →
      OsCall.setMark m ∈ (apply os dbg o s).trace) ∧
    (os.ioFail (OsCall.setNodelay o.nodelay) = none →
      (dbg = true → os.ioFail OsCall.getNodelay = none) →
      (∀ k, o.recv_buffer_size = some k → os.ioFail (OsCall.setRecvBuffer k) = none) →
      (dbg = true → os.ioFail OsCall.getRecvBuffer = none) →
      (∀ k, o.send_buffer_size = some k → os.ioFail (OsCall.setSendBuffer k) = none) →
      (dbg = true → os.ioFail OsCall.getSendBuffer = none) →
      (∀ k, o.fwmark = some k → os.nixFail (OsCall.setMark k) = none) →
      (OsCall.getMark ∈ (apply os dbg o s).trace ↔ dbg = true)) ∧
    (∀ e, (apply os dbg o s).result = Except.error (ApplyTcpOptionsError.Mark e) →
      (∃ m, o.fwmark = some m ∧ os.nixFail (OsCall.setMark m) = some e) ∨
        os.nixFail OsCall.getMark = some e) ∧
    (∀ (os' : Os) (dbg' : Bool) (o' : TcpOptionsNonLinux) (s' : SockState),
      ∀ c ∈ (applyNonLinux os' dbg' o' s').trace, isMarkCall c = false) ∧
    (∀ err : ApplyTcpOptionsErrorNonLinux,
      (∃ e, err = ApplyTcpOptionsErrorNonLinux.NoDelay e) ∨
      (∃ e, err = ApplyTcpOptionsErrorNonLinux.RecvBuffer e) ∨
      (∃ e, err = ApplyTcpOptionsErrorNonLinux.SendBuffer e)) ∧
    (∀ m e, o.fwmark = some m →
      os.ioFail (OsCall.setNodelay o.nodelay) = none →
      (dbg = true → os.ioFail OsCall.getNodelay = none) →
      (∀ k, o.recv_buffer_size = some k → os.ioFail (OsCall.setRecvBuffer k) = none) →
      (dbg = true → os.ioFail OsCall.getRecvBuffer = none) →
      (∀ k, o.send_buffer_size = some k → os.ioFail (OsCall.setSendBuffer k) = none) →
      (dbg = true → os.ioFail OsCall.getSendBuffer = none) →
      os.nixFail (OsCall.setMark m) = some e →
      (apply os dbg o s).result = Except.error (ApplyTcpOptionsError.Mark e)) ∧
    (∀ e, dbg = true →
      os.ioFail (OsCall.setNodelay o.nodelay) = none →
      os.ioFail OsCall.getNodelay = none →
      (∀ k, o.recv_buffer_size = some k → os.ioFail (OsCall.setRecvBuffer k) = none) →
      os.ioFail OsCall.getRecvBuffer = none →
      (∀ k, o.send_buffer_size = some k → os.ioFail (OsCall.setSendBuffer k) = none) →
      os.ioFail OsCall.getSendBuffer = none →
      (∀ k, o.fwmark = some k → os.nixFail (OsCall.setMark k) = none) →
      os.nixFail OsCall.getMark = some e →
      (apply os dbg o s).result = Except.error (ApplyTcpOptionsError.Mark e)) := by
  refine ⟨?_, ?_, ?_, ?_, ?_, ?_, ?_, ?_⟩
  · intro m hmem
    exact (setMark_mem_plan dbg o m).mp (mem_trace_mem_plan os dbg o s _ hmem)
  · intro m hm hs1 hg1 hrs hgr hss hgs
    rw [apply_eq_runPlan, plan_decomp_markSet dbg o m hm]
    apply runPlan_reach
    exact premark_prefix_ok os dbg o hs1 hg1 hrs hgr hss hgs
  · intro hs1 hg1 hrs hgr hss hgs hms
    constructor
    · intro hmem
      exact (getMark_mem_plan dbg o).mp (mem_trace_mem_plan os dbg o s _ hmem)
    · intro hdbg
      subst hdbg
      rw [apply_eq_runPlan, plan_decomp_markGet o]
      apply runPlan_reach
      have happ : plan true o = plan true o := rfl
      exact premarkGet_prefix_ok os o hs1 (hg1 rfl) hrs (hgr rfl) hss (hgs rfl) hms
  · intro e herr
    rw [apply_eq_runPlan] at herr
    obtain ⟨l1, c, l2, hl, _, h2, _, _⟩ :=
      runPlan_error_decomp os (plan dbg o) s (ApplyTcpOptionsError.Mark e) herr
    have hcmem : c ∈ plan dbg o := by
      rw [hl]
      simp
    obtain ⟨hsrc, hnix⟩ := failOf_mark_src os c e h2
    rcases hsrc with ⟨m, rfl⟩ | rfl
    · exact Or.inl ⟨m, (setMark_mem_plan dbg o m).mp hcmem, hnix⟩
    · exact Or.inr hnix
  · exact fun os' dbg' o' s' => applyNonLinux_no_mark os' dbg' o' s'
  · intro err
    cases err with
    | NoDelay e => exact Or.inl ⟨e, rfl⟩
    | RecvBuffer e => exact Or.inr (Or.inl ⟨e, rfl⟩)
    | SendBuffer e => exact Or.inr (Or.inr ⟨e, rfl⟩)
  · intro m e hm hs1 hg1 hrs hgr hss hgs hfail
    rw [apply_eq_runPlan, plan_decomp_markSet dbg o m hm]
    exact runPlan_first_fail os (ApplyTcpOptionsError.Mark e) (OsCall.setMark m)
      (if dbg then [OsCall.getMark] else []) _ s
      (premark_prefix_ok os dbg o hs1 hg1 hrs hgr hss hgs) (by simp [failOf, hfail])
  · intro e hdbg hs1 hg1 hrs hgr hss hgs hms hfail
    subst hdbg
    rw [apply_eq_runPlan, plan_decomp_markGet o]
    exact runPlan_first_fail os (ApplyTcpOptionsError.Mark e) OsCall.getMark [] _ s
      (premarkGet_prefix_ok os o hs1 hg1 hrs hgr hss hgs hms) (by simp [failOf, hfail])

/-- Witness for C4: with a mark of 5 requested and everything before the
mark stage succeeding, the `SO_MARK` set call is issued even though it
will fail. -/
theorem claim_C4_witness :
    OsCall.setMark 5 ∈
      (apply osSetMarkFails true ⟨true, some 1, some 2, some 5⟩ st0).trace :=
  (claim_C4_mark_stage osSetMarkFails true ⟨true, some 1, some 2, some 5⟩ st0).2.1
    5 rfl rfl (fun _ => rfl) (fun _ _ => rfl) (fun _ => rfl) (fun _ _ => rfl) (fun _ => rfl)

theorem plan_false_eq (o : TcpOptions) :
    plan false o = OsCall.setNodelay o.nodelay ::
      ((match o.recv_buffer_size with | some k => [OsCall.setRecvBuffer k] | none => [])
        ++ (match o.send_buffer_size with | some k => [OsCall.setSendBuffer k] | none => [])
        ++ (match o.fwmark with | some k => [OsCall.setMark k] | none => [])) := by
  simp [plan, ndReadPlan, recvPlan, recvReadPlan, sendPlan, sendReadPlan, markPlan]

/-- C5: each of the four read-back calls is executed only when debug-level
logging is enabled when `apply` runs (they sit inside `log::debug!`
arguments); with debug logging disabled, no read-back call appears in the
trace at all, and consequently - provided every set call that is issued
succeeds - `apply` returns Ok even if every read-back would have failed at
the OS level. -/
theorem claim_C5_readbacks_debug_gated (os : Os) (dbg : Bool) (o : TcpOptions)
    (s : SockState) :
    (∀ c ∈ (apply os dbg o s).trace, isReadbackCall c = true → dbg = true) ∧
    (os.ioFail (OsCall.setNodelay o.nodelay) = none →
      (∀ n, o.recv_buffer_size = some n → os.ioFail (OsCall.setRecvBuffer n) = none) →
      (∀ n, o.send_buffer_size = some n → os.ioFail (OsCall.setSendBuffer n) = none) →
      (∀ m, o.fwmark = some m → os.nixFail (OsCall.setMark m) = none) →
      (apply os false o s).result = Except.ok ()) := by
  constructor
  · intro c hc hrb
    cases hdbg : dbg with
    | true => rfl
    | false =>
      subst hdbg
      have hn := no_readback_in_plan_false o c (mem_trace_mem_plan os false o s c hc)
      rw [hn] at hrb
      exact Bool.noConfusion hrb
  · intro h1 h2 h3 h4
    rw [apply_eq_runPlan, runPlan_result_ok_iff os (plan false o) s, plan_false_eq]
    intro c hc
    simp only [List.mem_cons, List.mem_append, or_assoc] at hc
    rcases hc with rfl | hc | hc | hc
    · simp [failOf, h1]
    · cases hr : o.recv_buffer_size with
      | none =>
        rw [hr] at hc
        simp at hc
      | some k =>
        rw [hr] at hc
        simp at hc
        simp [hc, failOf, h2 k hr]
    · cases hsn : o.send_buffer_size with
      | none =>
        rw [hsn] at hc
        simp at hc
      | some k =>
        rw [hsn] at hc
        simp at hc
        simp [hc, failOf, h3 k hsn]
    · cases hm : o.fwmark with
      | none =>
        rw [hm] at hc
        simp at hc
      | some k =>
        rw [hm] at hc
        simp at hc
        simp [hc, failOf, h4 k hm]

/-- Witness for C5: the oracle fails every read-back, all options are
requested, debug logging is off - and `apply` still returns Ok. -/
theorem claim_C5_witness :
    (apply osAllGetsFail false ⟨true, some 1024, some 2048, some 7⟩ st0).result =
      Except.ok () :=
  (claim_C5_readbacks_debug_gated osAllGetsFail false ⟨true, some 1024, some 2048, some 7⟩
    st0).2 rfl (fun _ _ => rfl) (fun _ _ => rfl) (fun _ _ => rfl)

theorem endState_idem (o : TcpOptions) (s : SockState) :
    endState o (endState o s) = endState o s := by
  cases hr : o.recv_buffer_size <;> cases hs : o.send_buffer_size <;> cases hm : o.fwmark <;>
    simp [endState, hr, hs, hm]

/-- C6: no rollback - when `apply` returns a failure, the socket state is
exactly the accumulated effect of the successfully completed calls (the
failing call, the last of the trace, has no effect and nothing is
reverted); in particular when only the mark set step fails, the no-delay
flag and both requested buffer sizes are already applied to the socket
when the `Mark` failure is returned. -/
theorem claim_C6_no_rollback (os : Os) (dbg : Bool) (o : TcpOptions) (s : SockState) :
    (∀ err, (apply os dbg o s).result = Except.error err →
      (apply os dbg o s).state =
        List.foldl applyCallState s ((apply os dbg o s).trace.dropLast)) ∧
    (∀ b r sn m e, o = ⟨b, some r, some sn, some m⟩ →
      os.ioFail (OsCall.setNodelay b) = none →
      (dbg = true → os.ioFail OsCall.getNodelay = none) →
      os.ioFail (OsCall.setRecvBuffer r) = none →
      (dbg = true → os.ioFail OsCall.getRecvBuffer = none) →
      os.ioFail (OsCall.setSendBuffer sn) = none →
      (dbg = true → os.ioFail OsCall.getSendBuffer = none) →
      os.nixFail (OsCall.setMark m) = some e →
      (apply os dbg o s).result = Except.error (ApplyTcpOptionsError.Mark e) ∧
      (apply os dbg o s).state.nodelay = b ∧
      (apply os dbg o s).state.recv_buffer = r ∧
      (apply os dbg o s).state.send_buffer = sn) := by
  constructor
  · intro err herr
    rw [apply_eq_runPlan] at herr ⊢
    obtain ⟨l1, c, l2, _, _, _, h3, h4⟩ :=
      runPlan_error_decomp os (plan dbg o) s err herr
    rw [h3, h4]
    simp
  · intro b r sn m e ho hs1 hg1 hrs hgr hss hgs hmark
    subst ho
    rw [apply_eq_runPlan]
    have e1 : failOf os (OsCall.setNodelay b) = none := by simp [failOf, hs1]
    have e2 : failOf os (OsCall.setRecvBuffer r) = none := by simp [failOf, hrs]
    have e3 : failOf os (OsCall.setSendBuffer sn) = none := by simp [failOf, hss]
    have emark : failOf os (OsCall.setMark m) = some (ApplyTcpOptionsError.Mark e) := by
      simp [failOf, hmark]
    cases dbg with
    | false =>
      simp [plan, ndReadPlan, recvPlan, recvReadPlan, sendPlan, sendReadPlan, markPlan,
        runPlan, e1, e2, e3, emark, applyCallState]
    | true =>
      have g1 : failOf os OsCall.getNodelay = none := by simp [failOf, hg1 rfl]
      have g2 : failOf os OsCall.getRecvBuffer = none := by simp [failOf, hgr rfl]
      have g3 : failOf os OsCall.getSendBuffer = none := by simp [failOf, hgs rfl]
      simp [plan, ndReadPlan, recvPlan, recvReadPlan, sendPlan, sendReadPlan, markPlan,
        runPlan, e1, e2, e3, g1, g2, g3, emark, applyCallState]

/-- Witness for C6: the mark set call fails while everything earlier
succeeds; the returned failure is the `Mark` kind and the no-delay flag
and both buffer sizes are already in the socket state. -/
theorem claim_C6_witness :
    (apply osSetMarkFails true ⟨true, some 1111, some 2222, some 7⟩ st0).result =
      Except.error (ApplyTcpOptionsError.Mark ⟨1⟩) ∧
    (apply osSetMarkFails true ⟨true, some 1111, some 2222, some 7⟩ st0).state.nodelay =
      true ∧
    (apply osSetMarkFails true ⟨true, some 1111, some 2222, some 7⟩ st0).state.recv_buffer =
      1111 ∧
    (apply osSetMarkFails true ⟨true, some 1111, some 2222, some 7⟩ st0).state.send_buffer =
      2222 :=
  (claim_C6_no_rollback osSetMarkFails true ⟨true, some 1111, some 2222, some 7⟩ st0).2
    true 1111 2222 7 ⟨1⟩ rfl rfl (fun _ => rfl) rfl (fun _ => rfl) rfl (fun _ => rfl) rfl

/-- C7: idempotence - if applying an Option Set to a socket succeeds, then
applying the identical Option Set again to the resulting socket also
succeeds and leaves the socket state unchanged. -/
theorem claim_C7_idempotent (os : Os) (dbg : Bool) (o : TcpOptions) (s : SockState)
    (h : (apply os dbg o s).result = Except.ok ()) :
    (apply os dbg o ((apply os dbg o s).state)).result = Except.ok () ∧
    (apply os dbg o ((apply os dbg o s).state)).state = (apply os dbg o s).state := by
  have hall : ∀ c ∈ plan dbg o, failOf os c = none := by
    rw [apply_eq_runPlan] at h
    exact (runPlan_result_ok_iff os (plan dbg o) s).mp h
  have h1 : apply os dbg o s =
      ⟨Except.ok (), List.foldl applyCallState s (plan dbg o), plan dbg o⟩ := by
    rw [apply_eq_runPlan]
    exact runPlan_ok_eq os (plan dbg o) s hall
  constructor
  · rw [apply_eq_runPlan]
    exact (runPlan_result_ok_iff os (plan dbg o) _).mpr hall
  · rw [h1]
    simp only [apply_eq_runPlan, foldl_plan_endState]
    rw [runPlan_ok_eq os (plan dbg o) (endState o s) hall]
    simp [foldl_plan_endState, endState_idem]

/-- Witness for C7: a successful application repeated on its own result
state succeeds again with the same end state. -/
theorem claim_C7_witness :
    (apply osAllOk true ⟨true, some 10, none, some 3⟩
      ((apply osAllOk true ⟨true, some 10, none, some 3⟩ st0).state)).result =
        Except.ok () ∧
    (apply osAllOk true ⟨true, some 10, none, some 3⟩
      ((apply osAllOk true ⟨true, some 10, none, some 3⟩ st0).state)).state =
      (apply osAllOk true ⟨true, some 10, none, some 3⟩ st0).state :=
  claim_C7_idempotent osAllOk true ⟨true, some 10, none, some 3⟩ st0 rfl

/-- C8: every failure value is exactly one of the four mutually exclusive
kinds (no-delay, receive-buffer, send-buffer, mark), each wrapping the
underlying OS error; each kind displays a fixed label naming its option
family (the four labels being pairwise distinct strings), and the wrapped
OS error is retrievable via the error's source. -/
theorem claim_C8_error_taxonomy :
    (∀ err : ApplyTcpOptionsError,
      (∃ e, err = ApplyTcpOptionsError.NoDelay e) ∨
      (∃ e, err = ApplyTcpOptionsError.RecvBuffer e) ∨
      (∃ e, err = ApplyTcpOptionsError.SendBuffer e) ∨
      (∃ e, err = ApplyTcpOptionsError.Mark e)) ∧
    (∀ (e₁ e₂ : IoError),
      ApplyTcpOptionsError.NoDelay e₁ ≠ ApplyTcpOptionsError.RecvBuffer e₂) ∧
    (∀ (e₁ e₂ : IoError),
      ApplyTcpOptionsError.NoDelay e₁ ≠ ApplyTcpOptionsError.SendBuffer e₂) ∧
    (∀ (e₁ : IoError) (e₂ : NixError),
      ApplyTcpOptionsError.NoDelay e₁ ≠ ApplyTcpOptionsError.Mark e₂) ∧
    (∀ (e₁ e₂ : IoError),
      ApplyTcpOptionsError.RecvBuffer e₁ ≠ ApplyTcpOptionsError.SendBuffer e₂) ∧
    (∀ (e₁ : IoError) (e₂ : NixError),
      ApplyTcpOptionsError.RecvBuffer e₁ ≠ ApplyTcpOptionsError.Mark e₂) ∧
    (∀ (e₁ : IoError) (e₂ : NixError),
      ApplyTcpOptionsError.SendBuffer e₁ ≠ ApplyTcpOptionsError.Mark e₂) ∧
    (∀ e, displayMessage (ApplyTcpOptionsError.NoDelay e) =
        "Failed to get/set TCP_NODELAY" ∧
      errorSource (ApplyTcpOptionsError.NoDelay e) = some (Sum.inl e)) ∧
    (∀ e, displayMessage (ApplyTcpOptionsError.RecvBuffer e) =
        "Failed to get/set TCP_RCVBUF" ∧
      errorSource (ApplyTcpOptionsError.RecvBuffer e) = some (Sum.inl e)) ∧
    (∀ e, displayMessage (ApplyTcpOptionsError.SendBuffer e) =
        "Failed to get/set TCP_SNDBUF" ∧
      errorSource (ApplyTcpOptionsError.SendBuffer e) = some (Sum.inl e)) ∧
    (∀ e, displayMessage (ApplyTcpOptionsError.Mark e) =
        "Failed to get/set SO_MARK" ∧
      errorSource (ApplyTcpOptionsError.Mark e) = some (Sum.inr e)) := by
  refine ⟨?_, ?_, ?_, ?_, ?_, ?_, ?_, ?_, ?_, ?_, ?_⟩
  · intro err
    cases err with
    | NoDelay e => exact Or.inl ⟨e, rfl⟩
    | RecvBuffer e => exact Or.inr (Or.inl ⟨e, rfl⟩)
    | SendBuffer e => exact Or.inr (Or.inr (Or.inl ⟨e, rfl⟩))
    | Mark e => exact Or.inr (Or.inr (Or.inr ⟨e, rfl⟩))
  · exact fun e₁ e₂ hc => ApplyTcpOptionsError.noConfusion hc
  · exact fun e₁ e₂ hc => ApplyTcpOptionsError.noConfusion hc
  · exact fun e₁ e₂ hc => ApplyTcpOptionsError.noConfusion hc
  · exact fun e₁ e₂ hc => ApplyTcpOptionsError.noConfusion hc
  · exact fun e₁ e₂ hc => ApplyTcpOptionsError.noConfusion hc
  · exact fun e₁ e₂ hc => ApplyTcpOptionsError.noConfusion hc
  · exact fun e => ⟨rfl, rfl⟩
  · exact fun e => ⟨rfl, rfl⟩
  · exact fun e => ⟨rfl, rfl⟩
  · exact fun e => ⟨rfl, rfl⟩

/-- C9: the applicator never validates buffer sizes: a present size (any
value, 0 and the maximum included) is planned and, when the stage is
reached, issued to the OS verbatim; a set call only ever carries a value
taken from the Option Set; and a buffer-family failure can only originate
from the OS set call or read-back of that family. -/
theorem claim_C9_sizes_forwarded_unvalidated (os : Os) (dbg : Bool) (o : TcpOptions)
    (s : SockState) :
    (∀ n, o.recv_buffer_size = some n → OsCall.setRecvBuffer n ∈ plan dbg o) ∧
    (∀ n, o.send_buffer_size = some n → OsCall.setSendBuffer n ∈ plan dbg o) ∧
    (∀ n, OsCall.setRecvBuffer n ∈ (apply os dbg o s).trace →
      o.recv_buffer_size = some n) ∧
    (∀ n, OsCall.setSendBuffer n ∈ (apply os dbg o s).trace →
      o.send_buffer_size = some n) ∧
    (∀ n, o.recv_buffer_size = some n → (apply os dbg o s).result = Except.ok () →
      OsCall.setRecvBuffer n ∈ (apply os dbg o s).trace) ∧
    (∀ n, o.send_buffer_size = some n → (apply os dbg o s).result = Except.ok () →
      OsCall.setSendBuffer n ∈ (apply os dbg o s).trace) ∧
    (∀ e, (apply os dbg o s).result = Except.error (ApplyTcpOptionsError.RecvBuffer e) →
      (∃ n, o.recv_buffer_size = some n ∧ os.ioFail (OsCall.setRecvBuffer n) = some e) ∨
        os.ioFail OsCall.getRecvBuffer = some e) ∧
    (∀ e, (apply os dbg o s).result = Except.error (ApplyTcpOptionsError.SendBuffer e) →
      (∃ n, o.send_buffer_size = some n ∧ os.ioFail (OsCall.setSendBuffer n) = some e) ∨
        os.ioFail OsCall.getSendBuffer = some e) := by
  refine ⟨?_, ?_, ?_, ?_, ?_, ?_, ?_, ?_⟩
  · intro n hr
    exact (setRecvBuffer_mem_plan dbg o n).mpr hr
  · intro n hsn
    exact (setSendBuffer_mem_plan dbg o n).mpr hsn
  · intro n hmem
    exact (setRecvBuffer_mem_plan dbg o n).mp (mem_trace_mem_plan os dbg o s _ hmem)
  · intro n hmem
    exact (setSendBuffer_mem_plan dbg o n).mp (mem_trace_mem_plan os dbg o s _ hmem)
  · intro n hr hok
    rw [apply_eq_runPlan] at hok ⊢
    have hall := (runPlan_result_ok_iff os (plan dbg o) s).mp hok
    rw [runPlan_ok_eq os (plan dbg o) s hall]
    exact (setRecvBuffer_mem_plan dbg o n).mpr hr
  · intro n hsn hok
    rw [apply_eq_runPlan] at hok ⊢
    have hall := (runPlan_result_ok_iff os (plan dbg o) s).mp hok
    rw [runPlan_ok_eq os (plan dbg o) s hall]
    exact (setSendBuffer_mem_plan dbg o n).mpr hsn
  · intro e herr
    rw [apply_eq_runPlan] at herr
    obtain ⟨l1, c, l2, hl, _, h2, _, _⟩ :=
      runPlan_error_decomp os (plan dbg o) s (ApplyTcpOptionsError.RecvBuffer e) herr
    have hcmem : c ∈ plan dbg o := by
      rw [hl]
      simp
    obtain ⟨hsrc, hio⟩ := failOf_recvBuffer_src os c e h2
    rcases hsrc with ⟨n, rfl⟩ | rfl
    · exact Or.inl ⟨n, (setRecvBuffer_mem_plan dbg o n).mp hcmem, hio⟩
    · exact Or.inr hio
  · intro e herr
    rw [apply_eq_runPlan] at herr
    obtain ⟨l1, c, l2, hl, _, h2, _, _⟩ :=
      runPlan_error_decomp os (plan dbg o) s (ApplyTcpOptionsError.SendBuffer e) herr
    have hcmem : c ∈ plan dbg o := by
      rw [hl]
      simp
    obtain ⟨hsrc, hio⟩ := failOf_sendBuffer_src os c e h2
    rcases hsrc with ⟨n, rfl⟩ | rfl
    · exact Or.inl ⟨n, (setSendBuffer_mem_plan dbg o n).mp hcmem, hio⟩
    · exact Or.inr hio

/-- Witness for C9: the extreme sizes 0 and the largest 64-bit value are
forwarded verbatim in the issued set calls. -/
theorem claim_C9_witness :
    OsCall.setRecvBuffer 0 ∈
      (apply osAllOk false ⟨false, some 0, some (2 ^ 64 - 1), none⟩ st0).trace ∧
    OsCall.setSendBuffer (2 ^ 64 - 1) ∈
      (apply osAllOk false ⟨false, some 0, some (2 ^ 64 - 1), none⟩ st0).trace :=
  ⟨(claim_C9_sizes_forwarded_unvalidated osAllOk false
      ⟨false, some 0, some (2 ^ 64 - 1), none⟩ st0).2.2.2.2.1 0 rfl rfl,
    (claim_C9_sizes_forwarded_unvalidated osAllOk false
      ⟨false, some 0, some (2 ^ 64 - 1), none⟩ st0).2.2.2.2.2.1 (2 ^ 64 - 1) rfl rfl⟩

/-- C10: for every failure kind the displayed message is exactly the fixed
label of that kind, independent of the wrapped OS error (no text of the
wrapped error ever appears in it); the wrapped error is exposed only
through the source accessor. -/
theorem claim_C10_display_fixed_label :
    (∀ e e' : IoError, displayMessage (ApplyTcpOptionsError.NoDelay e) =
      displayMessage (ApplyTcpOptionsError.NoDelay e')) ∧
    (∀ e e' : IoError, displayMessage (ApplyTcpOptionsError.RecvBuffer e) =
      displayMessage (ApplyTcpOptionsError.RecvBuffer e')) ∧
    (∀ e e' : IoError, displayMessage (ApplyTcpOptionsError.SendBuffer e) =
      displayMessage (ApplyTcpOptionsError.SendBuffer e')) ∧
    (∀ e e' : NixError, displayMessage (ApplyTcpOptionsError.Mark e) =
      displayMessage (ApplyTcpOptionsError.Mark e')) ∧
    (∀ err : ApplyTcpOptionsError,
      displayMessage err = "Failed to get/set TCP_NODELAY" ∨
      displayMessage err = "Failed to get/set TCP_RCVBUF" ∨
      displayMessage err = "Failed to get/set TCP_SNDBUF" ∨
      displayMessage err = "Failed to get/set SO_MARK") ∧
    (∀ e, errorSource (ApplyTcpOptionsError.NoDelay e) = some (Sum.inl e)) ∧
    (∀ e, errorSource (ApplyTcpOptionsError.RecvBuffer e) = some (Sum.inl e)) ∧
    (∀ e, errorSource (ApplyTcpOptionsError.SendBuffer e) = some (Sum.inl e)) ∧
    (∀ e, errorSource (ApplyTcpOptionsError.Mark e) = some (Sum.inr e)) := by
  refine ⟨fun e e' => rfl, fun e e' => rfl, fun e e' => rfl, fun e e' => rfl, ?_,
    fun e => rfl, fun e => rfl, fun e => rfl, fun e => rfl⟩
  intro err
  cases err with
  | NoDelay e => exact Or.inl rfl
  | RecvBuffer e => exact Or.inr (Or.inl rfl)
  | SendBuffer e => exact Or.inr (Or.inr (Or.inl rfl))
  | Mark e => exact Or.inr (Or.inr (Or.inr rfl))

/-- Witness for C8: the taxonomy at a concrete wrapped error - fixed label,
source exposing the cause, and distinctness of kinds. -/
theorem claim_C8_witness :
    displayMessage (ApplyTcpOptionsError.NoDelay ⟨"connection reset"⟩) =
      "Failed to get/set TCP_NODELAY" ∧
    errorSource (ApplyTcpOptionsError.NoDelay ⟨"connection reset"⟩) =
      some (Sum.inl ⟨"connection reset"⟩) ∧
    ApplyTcpOptionsError.NoDelay ⟨"connection reset"⟩ ≠
      ApplyTcpOptionsError.RecvBuffer ⟨"connection reset"⟩ :=
  ⟨(claim_C8_error_taxonomy.2.2.2.2.2.2.2.1 ⟨"connection reset"⟩).1,
    (claim_C8_error_taxonomy.2.2.2.2.2.2.2.1 ⟨"connection reset"⟩).2,
    claim_C8_error_taxonomy.2.1 ⟨"connection reset"⟩ ⟨"connection reset"⟩⟩
